import Mathlib

/-!
mdview: title extraction and output routing.

A shallow embedding of `main.go` of mdview.  Go strings are taken as sequences
of Unicode code points (Lean `String`), which covers every Go string holding
valid UTF-8; Go `int` fields are only compared for equality and are taken as
`Int`.
-/

namespace Mdview

/-! ## Tokens of `gitlab.com/golang-commonmark/markdown` -/

/-- The variants of `markdown.Token` that `getTitle` and `getText` tell apart,
with the fields they read or skip; `Other` stands for every further variant
(images, raw HTML, paragraphs, ...) and for the nil interface value. -/
inductive Token where
  | HeadingOpen (HLevel : Int) (Lvl : Int)
  | HeadingClose (HLevel : Int) (Lvl : Int)
  | Text (Content : String)
  | Inline (Content : String) (Children : List Token)
  | Other (kind : Nat)
  deriving Repr

/-- Type assertion `token.(*markdown.HeadingOpen)`: the `Lvl` field when it succeeds. -/
def Token.asHeadingOpen : Token → Option Int
  | .HeadingOpen _ lvl => some lvl
  | _ => none

/-- Type assertion `token.(*markdown.HeadingClose)`: the `Lvl` field when it succeeds. -/
def Token.asHeadingClose : Token → Option Int
  | .HeadingClose _ lvl => some lvl
  | _ => none

/-! ## `strings.TrimSpace` -/

/-- Go `unicode.IsSpace`: the Latin-1 switch, then the `White_Space` table. -/
def isSpace (c : Char) : Bool :=
  let r := c.toNat
  if r ≤ 0xFF then
    r = 0x09 || r = 0x0A || r = 0x0B || r = 0x0C || r = 0x0D || r = 0x20 || r = 0x85 || r = 0xA0
  else
    r = 0x1680 || (0x2000 ≤ r && r ≤ 0x200A) || r = 0x2028 || r = 0x2029 || r = 0x202F ||
      r = 0x205F || r = 0x3000

/-- Go `strings.TrimSpace` (standard library): the string with all leading and
trailing white space, as defined by `unicode.IsSpace`, removed. -/
def TrimSpace (s : String) : String :=
  ⟨(s.data.dropWhile isSpace).rdropWhile isSpace⟩

/-! ## `getText` and `getTitle` -/

mutual
/-- Source `getText`: the type switch on the token. -/
def getText : Token → String
  | .Text Content => Content
  | .Inline _ Children => getText.loop Children ""
  | _ => ""
/-- The `for _, token := range token.Children` loop of `getText`, with the
accumulator `result`. -/
def getText.loop : List Token → String → String
  | [], result => result
  | token :: rest, result => getText.loop rest (result ++ getText token)
end

/-- What can stop a run of the loops of `getTitle` short of a result. -/
inductive Fault where
  | indexOutOfRange
  | outOfFuel
  deriving DecidableEq, Repr

instance : DecidableEq (Except Fault String)
  | .ok a, .ok b => if h : a = b then isTrue (by rw [h]) else isFalse (by intro e; cases e; exact h rfl)
  | .error a, .error b =>
    if h : a = b then isTrue (by rw [h]) else isFalse (by intro e; cases e; exact h rfl)
  | .ok _, .error _ => isFalse (by intro e; cases e)
  | .error _, .ok _ => isFalse (by intro e; cases e)

/-- The inner loop of `getTitle`, `for j := i + 1; j < len(tokens); j++`, entered
for the heading level `lvl`; one unit of fuel pays for one test of the loop
condition. -/
def getTitle.inner (tokens : List Token) (lvl : Int) :
    Nat → Nat → String → Except Fault String
  | 0, _, _ => .error .outOfFuel
  | fuel + 1, j, result =>
    if j < tokens.length then
      match tokens[j]? with
      | none => .error .indexOutOfRange
      | some tok =>
        if tok.asHeadingClose = some lvl then .ok result
        else getTitle.inner tokens lvl fuel (j + 1) (result ++ getText tok)
    else .ok result

/-- The outer loop of `getTitle`, `for i := 0; i < len(tokens); i++`; `result` is
still empty when the loop is left without a heading. -/
def getTitle.outer (tokens : List Token) : Nat → Nat → Except Fault String
  | 0, _ => .error .outOfFuel
  | fuel + 1, i =>
    if i < tokens.length then
      match tokens[i]? with
      | none => .error .indexOutOfRange
      | some tok =>
        match tok.asHeadingOpen with
        | some lvl => (getTitle.inner tokens lvl fuel (i + 1) "").map TrimSpace
        | none => getTitle.outer tokens fuel (i + 1)
    else .ok ""

/-- Source `getTitle`, run with `fuel` tests of a loop condition. -/
def getTitleFuel (fuel : Nat) (tokens : List Token) : Except Fault String :=
  if tokens.length > 0 then getTitle.outer tokens fuel 0 else .ok ""

/-- Source `getTitle`: one pass over the sequence, `len(tokens) + 1` tests of a
loop condition at most. -/
def getTitle (tokens : List Token) : Except Fault String :=
  getTitleFuel (tokens.length + 1) tokens

/-! ## `fmt.Printf` -/

/-- The part of package `fmt` left uninterpreted: what `doPrintf` appends from a
directive on, given the format from that `%` to its end, all operands and the
index of the next operand. -/
abbrev FmtRest := List Char → List String → Nat → List Char

/-- Characters after `%` that start a flag, a width, a precision or an argument
index in package `fmt`. -/
def isDirectiveChar (c : Char) : Bool :=
  c = '#' || c = '0' || c = '+' || c = '-' || c = ' ' || c = '[' || c = '*' || c = '.' ||
    (0x31 ≤ c.toNat && c.toNat ≤ 0x39)

/-- The `%!(EXTRA type=value, ...)` that `doPrintf` appends for the operands left
over from index `argNum` on, all of them strings; nothing when none is left. -/
def extraArgs (a : List String) (argNum : Nat) : List Char :=
  if argNum < a.length then
    "%!(EXTRA ".data ++
      (", ".intercalate ((a.drop argNum).map fun arg => "string=" ++ arg)).data ++ ")".data
  else []

/-- Go `(*pp).doPrintf` over string operands: literal text is copied, `%%` gives
`%`, a verb with no operand left gives `%!verb(MISSING)`, a format ending in `%`
gives `%!(NOVERB)`, `%s` gives the operand unchanged; flags, width, precision,
argument indexes and the other verbs applied to an operand go to `more`. -/
def doPrintf (more : FmtRest) (a : List String) : List Char → Nat → List Char
  | [], argNum => extraArgs a argNum
  | c :: format, argNum =>
    if c ≠ '%' then c :: doPrintf more a format argNum
    else
      match format with
      | [] => "%!(NOVERB)".data ++ extraArgs a argNum
      | verb :: format' =>
        if verb = '%' then '%' :: doPrintf more a format' argNum
        else if isDirectiveChar verb then more (c :: verb :: format') a argNum
        else
          match a[argNum]? with
          | none => "%!".data ++ verb :: "(MISSING)".data ++ doPrintf more a format' argNum
          | some arg =>
            if verb = 's' then arg.data ++ doPrintf more a format' (argNum + 1)
            else more (c :: verb :: format') a argNum

/-- Go `fmt.Sprintf` over string operands: the bytes `fmt.Printf` and
`fmt.Fprintf` hand to their writer. -/
def Sprintf (more : FmtRest) (format : String) (a : List String) : String :=
  ⟨doPrintf more a format.data 0⟩

/-! ## Constants of `main.go` -/

/-- Source constant `appVersion`. -/
def appVersion : String := "1.4.0"

/-- Source constant `template`. -/
def template : String :=
  "<!DOCTYPE html><html><head><meta http-equiv=\"content-type\" content=\"text/html; charset=utf-8\"> <style>%s</style><title>%s</title></head><body class=\"markdown-body\">%s</body></html>"

/-- Source constant `style`, the light stylesheet. -/
def style : String :=
  ".markdown-body \x7bbox-sizing: border-box;min-width: 200px;max-width:\n\t \t980px;margin: 0 auto;padding: 45px;\x7d\t@media (max-width: 767px) \x7b.markdown-body\n\t\t\x7bpadding: 15px;\x7d\x7d.markdown-body hr::after,.markdown-body::after\x7bclear:both\x7d\n\t\t@font-face\x7bfont-family:octicons-link;src:url(data:font/woff;charset=utf-8;\n\t\tbase64,d09GRgABAAAAAAZwABAAAAAACFQAAAAAAAAAAAAAAAAAAAAAAAAAAAAAAABEU0lHAAAGa\n\t\tAAAAAgAAAAIAAAAAUdTVUIAAAZcAAAACgAAAAoAAQAAT1MvMgAAAyQAAABJAAAAYFYEU3RjbWFwAA\n\t\tADcAAAAEUAAACAAJThvmN2dCAAAATkAAAABAAAAAQAAAAAZnBnbQAAA7gAAACyAAABCUM+8IhnYXN\n\t\twAAAGTAAAABAAAAAQABoAI2dseWYAAAFsAAABPAAAAZwcEq9taGVhZAAAAsgAAAA0AAAANgh4a91oa\n\t\tGVhAAADCAAAABoAAAAkCA8DRGhtdHgAAAL8AAAADAAAAAwGAACfbG9jYQAAAsAAAAAIAAAACABiATBt\n\t\tYXhwAAACqAAAABgAAAAgAA8ASm5hbWUAAAToAAABQgAAAlXu73sOcG9zdAAABiwAAAAeAAAAME3QpOB\n\t\twcmVwAAAEbAAAAHYAAAB/aFGpk3jaTY6xa8JAGMW/O62BDi0tJLYQincXEypYIiGJjSgHniQ6umTsUE\n\t\tyLm5BV6NDBP8Tpts6F0v+k/0an2i+itHDw3v2+9+DBKTzsJNnWJNTgHEy4BgG3EMI9DCEDOGEXzDADU\n\t\t5hBKMIgNPZqoD3SilVaXZCER3/I7AtxEJLtzzuZfI+VVkprxTlXShWKb3TBecG11rwoNlmmn1P2WYcJ\n\t\tczl32etSpKnziC7lQyWe1smVPy/Lt7Kc+0vWY/gAgIIEqAN9we0pwKXreiMasxvabDQMM4riO+qxM2o\n\t\tgwDGOZTXxwxDiycQIcoYFBLj5K3EIaSctAq2kTYiw+ymhce7vwM9jSqO8JyVd5RH9gyTt2+J/yUmYlI\n\t\tR0s04n6+7Vm1ozezUeLEaUjhaDSuXHwVRgvLJn1tQ7xiuVv/ocTRF42mNgZGBgYGbwZOBiAAFGJBIMA\n\t\tAizAFoAAABiAGIAznjaY2BkYGAA4in8zwXi+W2+MjCzMIDApSwvXzC97Z4Ig8N/BxYGZgcgl52BCSQK\n\t\tAA3jCV8CAABfAAAAAAQAAEB42mNgZGBg4f3vACQZQABIMjKgAmYAKEgBXgAAeNpjYGY6wTiBgZWBg2k\n\t\tmUxoDA4MPhGZMYzBi1AHygVLYQUCaawqDA4PChxhmh/8ODDEsvAwHgMKMIDnGL0x7gJQCAwMAJd4MFw\n\t\tAAAHjaY2BgYGaA4DAGRgYQkAHyGMF8NgYrIM3JIAGVYYDT+AEjAwuDFpBmA9KMDEwMCh9i/v8H8sH0/\n\t\t4dQc1iAmAkALaUKLgAAAHjaTY9LDsIgEIbtgqHUPpDi3gPoBVyRTmTddOmqTXThEXqrob2gQ1FjwpDv\n\t\tfwCBdmdXC5AVKFu3e5MfNFJ29KTQT48Ob9/lqYwOGZxeUelN2U2R6+cArgtCJpauW7UQBqnFkUsjAY/\n\t\tkOU1cP+DAgvxwn1chZDwUbd6CFimGXwzwF6tPbFIcjEl+vvmM/byA48e6tWrKArm4ZJlCbdsrxksL1A\n\t\twWn/yBSJKpYbq8AXaaTb8AAHja28jAwOC00ZrBeQNDQOWO//sdBBgYGRiYWYAEELEwMTE4uzo5Zzo5b\n\t\t2BxdnFOcALxNjA6b2ByTswC8jYwg0VlNuoCTWAMqNzMzsoK1rEhNqByEyerg5PMJlYuVueETKcd/89u\n\t\tBpnpvIEVomeHLoMsAAe1Id4AAAAAAAB42oWQT07CQBTGv0JBhagk7HQzKxca2sJCE1hDt4QF+9JOS0n\n\t\tbaaYDCQfwCJ7Au3AHj+LO13FMmm6cl7785vven0kBjHCBhfpYuNa5Ph1c0e2Xu3jEvWG7UdPDLZ4N92\n\t\tnOm+EBXuAbHmIMSRMs+4aUEd4Nd3CHD8NdvOLTsA2GL8M9PODbcL+hD7C1xoaHeLJSEao0FEW14ckxC\n\t\t+TU8TxvsY6X0eLPmRhry2WVioLpkrbp84LLQPGI7c6sOiUzpWIWS5GzlSgUzzLBSikOPFTOXqly7rqx\n\t\t0Z1Q5BAIoZBSFihQYQOOBEdkCOgXTOHA07HAGjGWiIjaPZNW13/+lm6S9FT7rLHFJ6fQbkATOG1j2OF\n\t\tMucKJJsxIVfQORl+9Jyda6Sl1dUYhSCm1dyClfoeDve4qMYdLEbfqHf3O/AdDumsjAAB42mNgYoAAZQ\n\t\tYjBmyAGYQZmdhL8zLdDEydARfoAqIAAAABAAMABwAKABMAB///AA8AAQAAAAAAAAAAAAAAAAABAAAAAA==)\n\t\tformat('woff')\x7d.markdown-body\x7b-ms-text-size-adjust:100%;-webkit-text-size-adjust:100%;\n\t\tcolor:#24292e;font-family:-apple-system,BlinkMacSystemFont,\\\"Segoe UI\\\",\n\t\tHelvetica,Arial,sans-serif,\\\"Apple Color Emoji\\\",\\\"Segoe UI Emoji\\\",\\\"Segoe UI Symbol\\\"\n\t\t;font-size:16px;line-height:1.5;word-wrap:break-word\x7d.markdown-body .pl-c\x7bcolor:#6a737d\x7d\n\t\t.markdown-body .pl-c1,.markdown-body .pl-s .pl-v\x7bcolor:#005cc5\x7d.markdown-body .pl-e,\n\t\t.markdown-body .pl-en\x7bcolor:#6f42c1\x7d.markdown-body .pl-s .pl-s1,.markdown-body .pl-smi\x7bcolor:#24292e\x7d\n\t\t.markdown-body .pl-ent\x7bcolor:#22863a\x7d.markdown-body .pl-k\x7bcolor:#d73a49\x7d.markdown-body .pl-pds,\n\t\t.markdown-body .pl-s,.markdown-body .pl-s .pl-pse .pl-s1,.markdown-body .pl-sr,.markdown-body \n\t\t.pl-sr .pl-cce,.markdown-body .pl-sr .pl-sra,.markdown-body .pl-sr .pl-sre\x7bcolor:#032f62\x7d.markdown-body\n\t\t.pl-smw,.markdown-body .pl-v\x7bcolor:#e36209\x7d.markdown-body .pl-bu\x7bcolor:#b31d28\x7d.markdown-body\n\t\t.pl-ii\x7bcolor:#fafbfc;background-color:#b31d28\x7d.markdown-body .pl-c2\x7bcolor:#fafbfc;background-color:#d73a49\x7d\n\t\t.markdown-body .pl-c2::before\x7bcontent:\\\"^M\\\"\x7d.markdown-body .pl-sr .pl-cce\x7bfont-weight:700;color:#22863a\x7d\n\t\t.markdown-body .pl-ml\x7bcolor:#735c0f\x7d.markdown-body .pl-mh,.markdown-body .pl-mh .pl-en,.markdown-body\n\t\t.pl-ms\x7bfont-weight:700;color:#005cc5\x7d.markdown-body .pl-mi\x7bfont-style:italic;color:#24292e\x7d.markdown-body\n\t\t.pl-mb\x7bfont-weight:700;color:#24292e\x7d.markdown-body .pl-md\x7bcolor:#b31d28;background-color:#ffeef0\x7d\n\t\t.markdown-body .pl-mi1\x7bcolor:#22863a;background-color:#f0fff4\x7d.markdown-body .pl-mc\x7bcolor:#e36209;\n\t\tbackground-color:#ffebda\x7d.markdown-body .pl-mi2\x7bcolor:#f6f8fa;background-color:#005cc5\x7d\n\t\t.markdown-body .pl-mdr\x7bfont-weight:700;color:#6f42c1\x7d.markdown-body .pl-ba\x7bcolor:#586069\x7d\n\t\t.markdown-body .pl-sg\x7bcolor:#959da5\x7d.markdown-body .pl-corl\x7btext-decoration:underline;\n\t\tcolor:#032f62\x7d.markdown-body .octicon\x7bdisplay:inline-block;fill:currentColor;vertical-align:text-bottom\x7d\n\t\t.markdown-body hr::after,.markdown-body hr::before,.markdown-body::after,\n\t\t.markdown-body::before\x7bdisplay:table;content:\\\"\\\"\x7d.markdown-body a\x7bbackground-color:transparent;\n\t\tcolor:#0366d6;text-decoration:none\x7d.markdown-body a:active,.markdown-body a:hover\x7boutline-width:0\x7d\n\t\t.markdown-body h1\x7bmargin:.67em 0\x7d.markdown-body img\x7bborder-style:none\x7d.markdown-body hr\x7bbox-sizing:content-box\x7d\n\t\t.markdown-body input\x7bfont:inherit;margin:0;overflow:visible;font-family:inherit;font-size:inherit;line-height:inherit\x7d\n\t\t.markdown-body dl dt,.markdown-body strong,.markdown-body table th\x7bfont-weight:600\x7d.markdown-body code,\n\t\t.markdown-body pre\x7bfont-family:SFMono-Regular,Consolas,\\\"Liberation Mono\\\",Menlo,Courier,monospace\x7d\n\t\t.markdown-body [type=checkbox]\x7bbox-sizing:border-box;padding:0\x7d.markdown-body *\x7bbox-sizing:border-box\x7d\n\t\t.markdown-body a:hover\x7btext-decoration:underline\x7d.markdown-body td,.markdown-body th\x7bpadding:0\x7d\n\t\t.markdown-body blockquote\x7bmargin:0\x7d.markdown-body ol ol,.markdown-body ul ol\x7blist-style-type:lower-roman\x7d\n\t\t.markdown-body ol ol ol,.markdown-body ol ul ol,.markdown-body ul ol ol,.markdown-body\n\t\tul ul ol\x7blist-style-type:lower-alpha\x7d.markdown-body dd\x7bmargin-left:0\x7d.markdown-body \n\t\t.pl-0\x7bpadding-left:0!important\x7d.markdown-body .pl-1\x7bpadding-left:4px!important\x7d.markdown-body \n\t\t.pl-2\x7bpadding-left:8px!important\x7d.markdown-body .pl-3\x7bpadding-left:16px!important\x7d.markdown-body \n\t\t.pl-4\x7bpadding-left:24px!important\x7d.markdown-body .pl-5\x7bpadding-left:32px!important\x7d.markdown-body \n\t\t.pl-6\x7bpadding-left:40px!important\x7d.markdown-body>:first-child\x7bmargin-top:0!important\x7d\n\t\t.markdown-body>:last-child\x7bmargin-bottom:0!important\x7d.markdown-body a:not([href])\x7bcolor:inherit;\n\t\ttext-decoration:none\x7d.markdown-body .anchor\x7bfloat:left;padding-right:4px;margin-left:-20px;\n\t\tline-height:1\x7d.markdown-body .anchor:focus\x7boutline:0\x7d.markdown-body blockquote,\n\t\t.markdown-body dl,.markdown-body ol,.markdown-body p,.markdown-body pre,.markdown-body table,\n\t\t.markdown-body ul\x7bmargin-top:0;margin-bottom:16px\x7d.markdown-body hr\x7boverflow:hidden;background:#e1e4e8;\n\t\theight:.25em;padding:0;margin:24px 0;border:0\x7d.markdown-body blockquote\x7bpadding:0 1em;color:#6a737d;\n\t\tborder-left:.25em solid #dfe2e5\x7d.markdown-body h1,.markdown-body h2\x7bpadding-bottom:.3em;\n\t\tborder-bottom:1px solid #eaecef\x7d.markdown-body blockquote>:first-child\x7bmargin-top:0\x7d\n\t\t.markdown-body blockquote>:last-child\x7bmargin-bottom:0\x7d.markdown-body h1,.markdown-body h2,\n\t\t.markdown-body h3,.markdown-body h4,.markdown-body h5,.markdown-body h6\x7bmargin-top:24px;\n\t\tmargin-bottom:16px;font-weight:600;line-height:1.25\x7d.markdown-body h1 .octicon-link,.markdown-body \n\t\th2 .octicon-link,.markdown-body h3 .octicon-link,.markdown-body h4 .octicon-link,.markdown-body \n\t\th5 .octicon-link,.markdown-body h6 .octicon-link\x7bcolor:#1b1f23;vertical-align:middle;visibility:hidden\x7d\n\t\t.markdown-body h1:hover .anchor,.markdown-body h2:hover .anchor,.markdown-body h3:hover .anchor,\n\t\t.markdown-body h4:hover .anchor,.markdown-body h5:hover .anchor,.markdown-body h6:hover .anchor\x7btext-decoration:none\x7d\n\t\t.markdown-body h1:hover .anchor .octicon-link,.markdown-body h2:hover .anchor .octicon-link,.markdown-body \n\t\th3:hover .anchor .octicon-link,.markdown-body h4:hover .anchor .octicon-link,.markdown-body h5:hover .anchor \n\t\t.octicon-link,.markdown-body h6:hover .anchor .octicon-link\x7bvisibility:visible\x7d.markdown-body h1\x7bfont-size:2em\x7d\n\t\t.markdown-body h2\x7bfont-size:1.5em\x7d.markdown-body h3\x7bfont-size:1.25em\x7d.markdown-body h4\x7bfont-size:1em\x7d.markdown-body\n\t\th5\x7bfont-size:.875em\x7d.markdown-body h6\x7bfont-size:.85em;color:#6a737d\x7d.markdown-body ol,.markdown-body ul\x7bpadding-left:2em\x7d\n\t\t.markdown-body ol ol,.markdown-body ol ul,.markdown-body ul ol,.markdown-body ul ul\x7bmargin-top:0;margin-bottom:0\x7d\n\t\t.markdown-body li\x7bword-wrap:break-all\x7d.markdown-body li>p\x7bmargin-top:16px\x7d.markdown-body li+li\x7bmargin-top:.25em\x7d\n\t\t.markdown-body dl\x7bpadding:0\x7d.markdown-body dl dt\x7bpadding:0;margin-top:16px;font-size:1em;font-style:italic\x7d.markdown-body\n\t\tdl dd\x7bpadding:0 16px;margin-bottom:16px\x7d.markdown-body table\x7bborder-spacing:0;border-collapse:collapse;display:block;\n\t\twidth:100%;overflow:auto\x7d.markdown-body table td,.markdown-body table th\x7bpadding:6px 13px;border:1px solid #dfe2e5\x7d\n\t\t.markdown-body table tr\x7bbackground-color:#fff;border-top:1px solid #c6cbd1\x7d.markdown-body table \n\t\ttr:nth-child(2n)\x7bbackground-color:#f6f8fa\x7d.markdown-body img\x7bmax-width:100%;box-sizing:content-box;background-color:#fff\x7d\n\t\t.markdown-body img[align=right]\x7bpadding-left:20px\x7d.markdown-body img[align=left]\x7bpadding-right:20px\x7d.markdown-body \n\t\tcode\x7bpadding:.2em .4em;margin:0;font-size:85%;background-color:rgba(27,31,35,.05);border-radius:3px\x7d.markdown-body \n\t\tpre\x7bword-wrap:normal\x7d.markdown-body pre>code\x7bpadding:0;margin:0;font-size:100%;word-break:normal;white-space:pre;background:0 0;\n\t\tborder:0\x7d.markdown-body .highlight\x7bmargin-bottom:16px\x7d.markdown-body .highlight pre\x7bmargin-bottom:0;word-break:normal\x7d\n\t\t.markdown-body .highlight pre,.markdown-body pre\x7bpadding:16px;overflow:auto;font-size:85%;line-height:1.45;\n\t\tbackground-color:#f6f8fa;border-radius:3px\x7d.markdown-body pre code\x7bdisplay:inline;max-width:auto;padding:0;margin:0;\n\t\toverflow:visible;line-height:inherit;word-wrap:normal;background-color:transparent;border:0\x7d.markdown-body \n\t\t.full-commit .btn-outline:not(:disabled):hover\x7bcolor:#005cc5;border-color:#005cc5\x7d.markdown-body kbd\x7bdisplay:inline-block;\n\t\tpadding:3px 5px;font:11px SFMono-Regular,Consolas,\\\"Liberation Mono\\\",Menlo,Courier,monospace;line-height:10px;color:#444d56;\n\t\tvertical-align:middle;background-color:#fafbfc;border:1px solid #d1d5da;border-bottom-color:#c6cbd1;border-radius:3px;\n\t\tbox-shadow:inset 0 -1px 0 #c6cbd1\x7d.markdown-body :checked+.radio-label\x7bposition:relative;z-index:1;border-color:#0366d6\x7d\n\t\t.markdown-body .task-list-item\x7blist-style-type:none\x7d.markdown-body .task-list-item+.task-list-item\x7bmargin-top:3px\x7d\n\t\t.markdown-body .task-list-item input\x7bmargin:0 .2em .25em -1.6em;vertical-align:middle\x7d.markdown-body hr\x7bborder-bottom-color:#eee\x7d"

/-- Source constant `darkstyle`, the dark stylesheet. -/
def darkstyle : String :=
  ".markdown-body \x7bcolor: #e8e8e8;background-color:#282828;box-sizing: border-box;min-width: 200px;max-width:\n\t \t980px;margin: 0 auto;padding: 45px;\x7d\t@media (max-width: 767px) \x7b.markdown-body\n\t\t\x7bpadding: 15px;\x7d\x7d.markdown-body hr::after,.markdown-body::after\x7bclear:both\x7d\n\t\t@font-face\x7bfont-family:octicons-link;src:url(data:font/woff;charset=utf-8;\n\t\tbase64,d09GRgABAAAAAAZwABAAAAAACFQAAAAAAAAAAAAAAAAAAAAAAAAAAAAAAABEU0lHAAAGa\n\t\tAAAAAgAAAAIAAAAAUdTVUIAAAZcAAAACgAAAAoAAQAAT1MvMgAAAyQAAABJAAAAYFYEU3RjbWFwAA\n\t\tADcAAAAEUAAACAAJThvmN2dCAAAATkAAAABAAAAAQAAAAAZnBnbQAAA7gAAACyAAABCUM+8IhnYXN\n\t\twAAAGTAAAABAAAAAQABoAI2dseWYAAAFsAAABPAAAAZwcEq9taGVhZAAAAsgAAAA0AAAANgh4a91oa\n\t\tGVhAAADCAAAABoAAAAkCA8DRGhtdHgAAAL8AAAADAAAAAwGAACfbG9jYQAAAsAAAAAIAAAACABiATBt\n\t\tYXhwAAACqAAAABgAAAAgAA8ASm5hbWUAAAToAAABQgAAAlXu73sOcG9zdAAABiwAAAAeAAAAME3QpOB\n\t\twcmVwAAAEbAAAAHYAAAB/aFGpk3jaTY6xa8JAGMW/O62BDi0tJLYQincXEypYIiGJjSgHniQ6umTsUE\n\t\tyLm5BV6NDBP8Tpts6F0v+k/0an2i+itHDw3v2+9+DBKTzsJNnWJNTgHEy4BgG3EMI9DCEDOGEXzDADU\n\t\t5hBKMIgNPZqoD3SilVaXZCER3/I7AtxEJLtzzuZfI+VVkprxTlXShWKb3TBecG11rwoNlmmn1P2WYcJ\n\t\tczl32etSpKnziC7lQyWe1smVPy/Lt7Kc+0vWY/gAgIIEqAN9we0pwKXreiMasxvabDQMM4riO+qxM2o\n\t\tgwDGOZTXxwxDiycQIcoYFBLj5K3EIaSctAq2kTYiw+ymhce7vwM9jSqO8JyVd5RH9gyTt2+J/yUmYlI\n\t\tR0s04n6+7Vm1ozezUeLEaUjhaDSuXHwVRgvLJn1tQ7xiuVv/ocTRF42mNgZGBgYGbwZOBiAAFGJBIMA\n\t\tAizAFoAAABiAGIAznjaY2BkYGAA4in8zwXi+W2+MjCzMIDApSwvXzC97Z4Ig8N/BxYGZgcgl52BCSQK\n\t\tAA3jCV8CAABfAAAAAAQAAEB42mNgZGBg4f3vACQZQABIMjKgAmYAKEgBXgAAeNpjYGY6wTiBgZWBg2k\n\t\tmUxoDA4MPhGZMYzBi1AHygVLYQUCaawqDA4PChxhmh/8ODDEsvAwHgMKMIDnGL0x7gJQCAwMAJd4MFw\n\t\tAAAHjaY2BgYGaA4DAGRgYQkAHyGMF8NgYrIM3JIAGVYYDT+AEjAwuDFpBmA9KMDEwMCh9i/v8H8sH0/\n\t\t4dQc1iAmAkALaUKLgAAAHjaTY9LDsIgEIbtgqHUPpDi3gPoBVyRTmTddOmqTXThEXqrob2gQ1FjwpDv\n\t\tfwCBdmdXC5AVKFu3e5MfNFJ29KTQT48Ob9/lqYwOGZxeUelN2U2R6+cArgtCJpauW7UQBqnFkUsjAY/\n\t\tkOU1cP+DAgvxwn1chZDwUbd6CFimGXwzwF6tPbFIcjEl+vvmM/byA48e6tWrKArm4ZJlCbdsrxksL1A\n\t\twWn/yBSJKpYbq8AXaaTb8AAHja28jAwOC00ZrBeQNDQOWO//sdBBgYGRiYWYAEELEwMTE4uzo5Zzo5b\n\t\t2BxdnFOcALxNjA6b2ByTswC8jYwg0VlNuoCTWAMqNzMzsoK1rEhNqByEyerg5PMJlYuVueETKcd/89u\n\t\tBpnpvIEVomeHLoMsAAe1Id4AAAAAAAB42oWQT07CQBTGv0JBhagk7HQzKxca2sJCE1hDt4QF+9JOS0n\n\t\tbaaYDCQfwCJ7Au3AHj+LO13FMmm6cl7785vven0kBjHCBhfpYuNa5Ph1c0e2Xu3jEvWG7UdPDLZ4N92\n\t\tnOm+EBXuAbHmIMSRMs+4aUEd4Nd3CHD8NdvOLTsA2GL8M9PODbcL+hD7C1xoaHeLJSEao0FEW14ckxC\n\t\t+TU8TxvsY6X0eLPmRhry2WVioLpkrbp84LLQPGI7c6sOiUzpWIWS5GzlSgUzzLBSikOPFTOXqly7rqx\n\t\t0Z1Q5BAIoZBSFihQYQOOBEdkCOgXTOHA07HAGjGWiIjaPZNW13/+lm6S9FT7rLHFJ6fQbkATOG1j2OF\n\t\tMucKJJsxIVfQORl+9Jyda6Sl1dUYhSCm1dyClfoeDve4qMYdLEbfqHf3O/AdDumsjAAB42mNgYoAAZQ\n\t\tYjBmyAGYQZmdhL8zLdDEydARfoAqIAAAABAAMABwAKABMAB///AA8AAQAAAAAAAAAAAAAAAAABAAAAAA==)\n\t\tformat('woff')\x7d.markdown-body\x7b-ms-text-size-adjust:100%;-webkit-text-size-adjust:100%;\n\t\tcolor:#e8e8e8;font-family:-apple-system,BlinkMacSystemFont,\\\"Segoe UI\\\",\n\t\tHelvetica,Arial,sans-serif,\\\"Apple Color Emoji\\\",\\\"Segoe UI Emoji\\\",\\\"Segoe UI Symbol\\\"\n\t\t;font-size:16px;line-height:1.5;word-wrap:break-word\x7d.markdown-body .pl-c\x7bcolor:#6a737d\x7d\n\t\t.markdown-body .pl-c1,.markdown-body .pl-s .pl-v\x7bcolor:#005cc5\x7d.markdown-body .pl-e,\n\t\t.markdown-body .pl-en\x7bcolor:#6f42c1\x7d.markdown-body .pl-s .pl-s1,.markdown-body .pl-smi\x7bcolor:#24292e\x7d\n\t\t.markdown-body .pl-ent\x7bcolor:#22863a\x7d.markdown-body .pl-k\x7bcolor:#d73a49\x7d.markdown-body .pl-pds,\n\t\t.markdown-body .pl-s,.markdown-body .pl-s .pl-pse .pl-s1,.markdown-body .pl-sr,.markdown-body \n\t\t.pl-sr .pl-cce,.markdown-body .pl-sr .pl-sra,.markdown-body .pl-sr .pl-sre\x7bcolor:#032f62\x7d.markdown-body\n\t\t.pl-smw,.markdown-body .pl-v\x7bcolor:#e36209\x7d.markdown-body .pl-bu\x7bcolor:#b31d28\x7d.markdown-body\n\t\t.pl-ii\x7bcolor:#fafbfc;background-color:#b31d28\x7d.markdown-body .pl-c2\x7bcolor:#fafbfc;background-color:#d73a49\x7d\n\t\t.markdown-body .pl-c2::before\x7bcontent:\\\"^M\\\"\x7d.markdown-body .pl-sr .pl-cce\x7bfont-weight:700;color:#22863a\x7d\n\t\t.markdown-body .pl-ml\x7bcolor:#735c0f\x7d.markdown-body .pl-mh,.markdown-body .pl-mh .pl-en,.markdown-body\n\t\t.pl-ms\x7bfont-weight:700;color:#005cc5\x7d.markdown-body .pl-mi\x7bfont-style:italic;color:#24292e\x7d.markdown-body\n\t\t.pl-mb\x7bfont-weight:700;color:#24292e\x7d.markdown-body .pl-md\x7bcolor:#b31d28;background-color:#ffeef0\x7d\n\t\t.markdown-body .pl-mi1\x7bcolor:#22863a;background-color:#f0fff4\x7d.markdown-body .pl-mc\x7bcolor:#e36209;\n\t\tbackground-color:#ffebda\x7d.markdown-body .pl-mi2\x7bcolor:#f6f8fa;background-color:#005cc5\x7d\n\t\t.markdown-body .pl-mdr\x7bfont-weight:700;color:#6f42c1\x7d.markdown-body .pl-ba\x7bcolor:#586069\x7d\n\t\t.markdown-body .pl-sg\x7bcolor:#959da5\x7d.markdown-body .pl-corl\x7btext-decoration:underline;\n\t\tcolor:#032f62\x7d.markdown-body .octicon\x7bdisplay:inline-block;fill:currentColor;vertical-align:text-bottom\x7d\n\t\t.markdown-body hr::after,.markdown-body hr::before,.markdown-body::after,\n\t\t.markdown-body::before\x7bdisplay:table;content:\\\"\\\"\x7d.markdown-body a\x7bbackground-color:transparent;\n\t\tcolor:#00bbff; text-decoration:none\x7d.markdown-body a:active,.markdown-body a:hover\x7boutline-width:0\x7d\n\t\t.markdown-body h1\x7bmargin:.67em 0\x7d.markdown-body img\x7bborder-style:none\x7d.markdown-body hr\x7bbox-sizing:content-box\x7d\n\t\t.markdown-body input\x7bfont:inherit;margin:0;overflow:visible;font-family:inherit;font-size:inherit;line-height:inherit\x7d\n\t\t.markdown-body dl dt,.markdown-body strong,.markdown-body table th\x7bfont-weight:600\x7d.markdown-body code,\n\t\t.markdown-body pre\x7bfont-family:SFMono-Regular,Consolas,\\\"Liberation Mono\\\",Menlo,Courier,monospace\x7d\n\t\t.markdown-body [type=checkbox]\x7bbox-sizing:border-box;padding:0\x7d.markdown-body *\x7bbox-sizing:border-box\x7d\n\t\t.markdown-body a:hover\x7btext-decoration:underline\x7d.markdown-body td,.markdown-body th\x7bpadding:0\x7d\n\t\t.markdown-body blockquote\x7bmargin:0\x7d.markdown-body ol ol,.markdown-body ul ol\x7blist-style-type:lower-roman\x7d\n\t\t.markdown-body ol ol ol,.markdown-body ol ul ol,.markdown-body ul ol ol,.markdown-body\n\t\tul ul ol\x7blist-style-type:lower-alpha\x7d.markdown-body dd\x7bmargin-left:0\x7d.markdown-body \n\t\t.pl-0\x7bpadding-left:0!important\x7d.markdown-body .pl-1\x7bpadding-left:4px!important\x7d.markdown-body \n\t\t.pl-2\x7bpadding-left:8px!important\x7d.markdown-body .pl-3\x7bpadding-left:16px!important\x7d.markdown-body \n\t\t.pl-4\x7bpadding-left:24px!important\x7d.markdown-body .pl-5\x7bpadding-left:32px!important\x7d.markdown-body \n\t\t.pl-6\x7bpadding-left:40px!important\x7d.markdown-body>:first-child\x7bmargin-top:0!important\x7d\n\t\t.markdown-body>:last-child\x7bmargin-bottom:0!important\x7d.markdown-body a:not([href])\x7bcolor:inherit;\n\t\ttext-decoration:none\x7d.markdown-body .anchor\x7bfloat:left;padding-right:4px;margin-left:-20px;\n\t\tline-height:1\x7d.markdown-body .anchor:focus\x7boutline:0\x7d.markdown-body blockquote,\n\t\t.markdown-body dl,.markdown-body ol,.markdown-body p,.markdown-body pre,.markdown-body table,\n\t\t.markdown-body ul\x7bmargin-top:0;margin-bottom:16px\x7d.markdown-body hr\x7boverflow:hidden;background:#888888;\n\t\theight:.25em;padding:0;margin:24px 0;border:0\x7d.markdown-body blockquote\x7bpadding:0 1em;color:#a8a8a8;\n\t\tborder-left:.25em solid #888888\x7d.markdown-body h1,.markdown-body h2\x7bpadding-bottom:.3em;\n\t\tborder-bottom:1px solid #888888\x7d.markdown-body blockquote>:first-child\x7bmargin-top:0\x7d\n\t\t.markdown-body blockquote>:last-child\x7bmargin-bottom:0\x7d.markdown-body h1,.markdown-body h2,\n\t\t.markdown-body h3,.markdown-body h4,.markdown-body h5,.markdown-body h6\x7bmargin-top:24px;\n\t\tmargin-bottom:16px;font-weight:600;line-height:1.25\x7d.markdown-body h1 .octicon-link,.markdown-body \n\t\th2 .octicon-link,.markdown-body h3 .octicon-link,.markdown-body h4 .octicon-link,.markdown-body \n\t\th5 .octicon-link,.markdown-body h6 .octicon-link\x7bcolor:#1b1f23;vertical-align:middle;visibility:hidden\x7d\n\t\t.markdown-body h1:hover .anchor,.markdown-body h2:hover .anchor,.markdown-body h3:hover .anchor,\n\t\t.markdown-body h4:hover .anchor,.markdown-body h5:hover .anchor,.markdown-body h6:hover .anchor\x7btext-decoration:none\x7d\n\t\t.markdown-body h1:hover .anchor .octicon-link,.markdown-body h2:hover .anchor .octicon-link,.markdown-body \n\t\th3:hover .anchor .octicon-link,.markdown-body h4:hover .anchor .octicon-link,.markdown-body h5:hover .anchor \n\t\t.octicon-link,.markdown-body h6:hover .anchor .octicon-link\x7bvisibility:visible\x7d.markdown-body h1\x7bfont-size:2em\x7d\n\t\t.markdown-body h2\x7bfont-size:1.5em\x7d.markdown-body h3\x7bfont-size:1.25em\x7d.markdown-body h4\x7bfont-size:1em\x7d.markdown-body\n\t\th5\x7bfont-size:.875em\x7d.markdown-body h6\x7bfont-size:.85em;color:#c8c8c8\x7d.markdown-body ol,.markdown-body ul\x7bpadding-left:2em\x7d\n\t\t.markdown-body ol ol,.markdown-body ol ul,.markdown-body ul ol,.markdown-body ul ul\x7bmargin-top:0;margin-bottom:0\x7d\n\t\t.markdown-body li\x7bword-wrap:break-all\x7d.markdown-body li>p\x7bmargin-top:16px\x7d.markdown-body li+li\x7bmargin-top:.25em\x7d\n\t\t.markdown-body dl\x7bpadding:0\x7d.markdown-body dl dt\x7bpadding:0;margin-top:16px;font-size:1em;font-style:italic\x7d.markdown-body\n\t\tdl dd\x7bpadding:0 16px;margin-bottom:16px\x7d.markdown-body table\x7bborder-spacing:0;border-collapse:collapse;display:block;\n\t\twidth:100%;overflow:auto\x7d.markdown-body table td,.markdown-body table th\x7bpadding:6px 13px;border:1px solid #888888\x7d\n\t\t.markdown-body table tr\x7bbackground-color:#323232;border-top:1px solid #c6cbd1\x7d.markdown-body table \n\t\ttr:nth-child(2n)\x7bbackground-color:#4e4e4e\x7d.markdown-body img\x7bmax-width:100%;box-sizing:content-box;background-color:#282C34\x7d\n\t\t.markdown-body img[align=right]\x7bpadding-left:20px\x7d.markdown-body img[align=left]\x7bpadding-right:20px\x7d.markdown-body \n\t\tcode\x7bpadding:.2em .4em;margin:0;font-size:85%;background-color:#282828;border-radius:3px\x7d.markdown-body \n\t\tpre\x7bword-wrap:normal\x7d.markdown-body pre>code\x7bpadding:0;margin:0;font-size:100%;word-break:normal;white-space:pre;background:0 0;\n\t\tborder:0\x7d.markdown-body .highlight\x7bmargin-bottom:16px\x7d.markdown-body .highlight pre\x7bmargin-bottom:0;word-break:normal\x7d\n\t\t.markdown-body .highlight pre,.markdown-body pre\x7bpadding:16px;overflow:auto;font-size:85%;line-height:1.45;\n\t\tbackground-color:transparent;border-radius:3px\x7d.markdown-body pre code\x7bdisplay:inline;max-width:auto;padding:0;margin:0;\n\t\toverflow:visible;line-height:inherit;word-wrap:normal;background-color:transparent;border:0\x7d.markdown-body \n\t\t.full-commit .btn-outline:not(:disabled):hover\x7bcolor:#005cc5;border-color:#005cc5\x7d.markdown-body kbd\x7bdisplay:inline-block;\n\t\tpadding:3px 5px;font:11px SFMono-Regular,Consolas,\\\"Liberation Mono\\\",Menlo,Courier,monospace;line-height:10px;color:#444d56;\n\t\tvertical-align:middle;background-color:#fafbfc;border:1px solid #d1d5da;border-bottom-color:#c6cbd1;border-radius:3px;\n\t\tbox-shadow:inset 0 -1px 0 #c6cbd1\x7d.markdown-body :checked+.radio-label\x7bposition:relative;z-index:1;border-color:#0366d6\x7d\n\t\t.markdown-body .task-list-item\x7blist-style-type:none\x7d.markdown-body .task-list-item+.task-list-item\x7bmargin-top:3px\x7d\n\t\t.markdown-body .task-list-item input\x7bmargin:0 .2em .25em -1.6em;vertical-align:middle\x7d.markdown-body hr\x7bborder-bottom-color:#eee\x7d"

/-! ## `main` -/

/-- The command-line flags of `main`, after `flag.Parse`. -/
structure Flags where
  outfile : String
  version : Bool
  help : Bool
  bare : Bool
  filepath : Bool
  xhtml : Bool
  dark : Bool

/-- The collaborators of `main`: the `flag`, `os`, `ioutil`, `rand`, `filepath`,
`markdown`, `browser` and `fmt` calls whose results it consumes.  A `false` or
`none` stands for a call that returns an error. -/
structure Env where
  flagDefaults : String
  readFile : String → Option String
  parse : Bool → String → List Token
  renderTokensToString : Bool → List Token → String
  snapUserCommon : String
  home : String
  statNotExist : String → Bool
  mkdirOk : String → Bool
  osTempDir : String
  randHex : String
  join : String → String → String
  createOk : String → Bool
  fprintfOk : Bool
  stdoutMode : Option Nat
  openFileOk : String → Bool
  printfOk : Bool
  fmtMore : FmtRest

/-- What a run asks of the operating system, in order. -/
inductive Event where
  | stdout (bytes : String)
  | stderr (bytes : String)
  | readFile (name : String)
  | mkdir (name : String)
  | create (name : String)
  | write (name : String) (bytes : String)
  | sync (name : String)
  | close (name : String)
  | openFile (name : String)
  deriving DecidableEq, Repr

/-- How a run ends: `os.Exit`, a panic out of `check` (or a nil dereference), or
the return of `main`. -/
inductive Outcome where
  | exit (code : Nat)
  | panic
  | returned
  deriving DecidableEq, Repr

/-- A run of `main`: its trace and how it ended. -/
structure Run where
  trace : List Event
  outcome : Outcome
  deriving DecidableEq, Repr

/-- Go `os.ModeCharDevice`. -/
def ModeCharDevice : Nat := 2 ^ 21

/-- The usage text `main` writes to the error stream. -/
def usage : String :=
  "Usage:\nmdview [options] <filename>\nFormats markdown and launches it in a browser.\n"

/-- Source `getTempDir`: the events and the directory, `none` when `check` panics. -/
def getTempDir (env : Env) : List Event × Option String :=
  if env.snapUserCommon ≠ "" then
    let tmpdir := env.home ++ "/mdview-temp"
    if env.statNotExist tmpdir then
      if env.mkdirOk tmpdir then ([.mkdir tmpdir], some tmpdir) else ([.mkdir tmpdir], none)
    else ([], some tmpdir)
  else ([], some env.osTempDir)

/-- Source `tempFileName`. -/
def tempFileName (env : Env) (pre suffix : String) : List Event × Option String :=
  match getTempDir env with
  | (evs, some dir) => (evs, some (env.join dir (pre ++ env.randHex ++ suffix)))
  | (evs, none) => (evs, none)

/-- The stylesheet `main` substitutes: `actualStyle` after the two `if`s. -/
def actualStyle (fl : Flags) : String :=
  let actualStyle := style
  let actualStyle := if fl.bare then "" else actualStyle
  let actualStyle := if fl.dark then darkstyle else actualStyle
  actualStyle

/-- The tail of `main` from `os.Stdout.Stat()` on: the events and whether it
panics. -/
def main.route (env : Env) (fl : Flags) (outfilePath title html : String) :
    List Event × Outcome :=
  match env.stdoutMode with
  | none => ([], .panic)
  | some mode =>
    if mode &&& ModeCharDevice = ModeCharDevice then
      ([.openFile outfilePath], if env.openFileOk outfilePath then .returned else .panic)
    else
      let out :=
        if fl.filepath then Sprintf env.fmtMore outfilePath []
        else Sprintf env.fmtMore template [actualStyle fl, title, html]
      ([.stdout out], if env.printfOk then .returned else .panic)

/-- The destination `outfilePath` of `main`: `*outfilePtr`, or
`tempFileName("mdview", ".html")` when that is empty. -/
def main.outfilePath (env : Env) (fl : Flags) : List Event × Option String :=
  if fl.outfile = "" then tempFileName env "mdview" ".html" else ([], some fl.outfile)

/-- Source `main`, on the parsed flags and `flag.Arg(0)`. -/
def main (env : Env) (fl : Flags) (inputFilename : String) : Run :=
  if fl.version then
    ⟨[.stdout (appVersion ++ "\n")], .exit 0⟩
  else if inputFilename = "" ∨ fl.help then
    ⟨[.stderr usage, .stderr env.flagDefaults], .exit 1⟩
  else
    match env.readFile inputFilename with
    | none => ⟨[.readFile inputFilename], .panic⟩
    | some dat =>
      let markdownTokens := env.parse fl.xhtml dat
      let html := env.renderTokensToString fl.xhtml markdownTokens
      match getTitle markdownTokens with
      | .error _ => ⟨[.readFile inputFilename], .panic⟩
      | .ok title =>
        match main.outfilePath env fl with
        | (evs, none) => ⟨.readFile inputFilename :: evs, .panic⟩
        | (evs, some outfilePath) =>
          if env.createOk outfilePath then
            let page := Sprintf env.fmtMore template [actualStyle fl, title, html]
            if env.fprintfOk then
              let (acts, outcome) := main.route env fl outfilePath title html
              ⟨.readFile inputFilename :: evs ++
                [.create outfilePath, .write outfilePath page, .sync outfilePath] ++ acts ++
                [.close outfilePath], outcome⟩
            else
              ⟨.readFile inputFilename :: evs ++
                [.create outfilePath, .write outfilePath page, .close outfilePath], .panic⟩
          else ⟨.readFile inputFilename :: evs ++ [.create outfilePath], .panic⟩

/-- The bytes a trace writes to standard output. -/
def stdoutBytes : List Event → String
  | [] => ""
  | .stdout bytes :: rest => bytes ++ stdoutBytes rest
  | _ :: rest => stdoutBytes rest

/-- The bytes a trace writes to the file `name`. -/
def fileBytes (name : String) : List Event → String
  | [] => ""
  | .write n bytes :: rest => if n = name then bytes ++ fileBytes name rest else fileBytes name rest
  | _ :: rest => fileBytes name rest

/-- A sample environment: every call succeeds, the document is a heading `Doc`
and a paragraph `100%`, standard output is a pipe. -/
def pipeEnv : Env where
  flagDefaults := ""
  readFile := fun _ => some "# Doc\n\n100%"
  parse := fun _ _ => [.HeadingOpen 1 0, .Inline "Doc" [.Text "Doc"], .HeadingClose 1 0,
    .Other 0, .Inline "100%" [.Text "100%"], .Other 1]
  renderTokensToString := fun _ _ => "<h1>Doc</h1><p>100%</p>"
  snapUserCommon := ""
  home := "/home/u"
  statNotExist := fun _ => false
  mkdirOk := fun _ => true
  osTempDir := "/tmp"
  randHex := "00112233445566778899aabbccddeeff"
  join := fun dir name => dir ++ "/" ++ name
  createOk := fun _ => true
  fprintfOk := true
  stdoutMode := some 0
  openFileOk := fun _ => true
  printfOk := true
  fmtMore := fun _ _ _ => []

/-- The sample environment with standard output redirected to `/dev/null`:
`os.Stdout.Stat()` gives the mode `Dcrw-rw-rw-`, that is
`ModeDevice | ModeCharDevice | 0666`, of a character device that is no terminal. -/
def devNullEnv : Env where
  flagDefaults := ""
  readFile := fun _ => some "# Doc\n\n100%"
  parse := fun _ _ => [.HeadingOpen 1 0, .Inline "Doc" [.Text "Doc"], .HeadingClose 1 0,
    .Other 0, .Inline "100%" [.Text "100%"], .Other 1]
  renderTokensToString := fun _ _ => "<h1>Doc</h1><p>100%</p>"
  snapUserCommon := ""
  home := "/home/u"
  statNotExist := fun _ => false
  mkdirOk := fun _ => true
  osTempDir := "/tmp"
  randHex := "00112233445566778899aabbccddeeff"
  join := fun dir name => dir ++ "/" ++ name
  createOk := fun _ => true
  fprintfOk := true
  stdoutMode := some (2 ^ 26 + 2 ^ 21 + 0o666)
  openFileOk := fun _ => true
  printfOk := true
  fmtMore := fun _ _ _ => []

/-- Sample flags: `-f -o 50%off.html`. -/
def percentFlags : Flags where
  outfile := "50%off.html"
  version := false
  help := false
  bare := false
  filepath := true
  xhtml := false
  dark := false

/-- Sample flags: `-f -o out.html`. -/
def pathFlags : Flags where
  outfile := "out.html"
  version := false
  help := false
  bare := false
  filepath := true
  xhtml := false
  dark := false

/-- Sample flags: `-o out.html`. -/
def pageFlags : Flags where
  outfile := "out.html"
  version := false
  help := false
  bare := false
  filepath := false
  xhtml := false
  dark := false

/-- Sample flags: `-b -d -o out.html`. -/
def bareDarkFlags : Flags where
  outfile := "out.html"
  version := false
  help := false
  bare := true
  filepath := false
  xhtml := false
  dark := true

/-- Sample flags: `-v -h`. -/
def versionHelpFlags : Flags where
  outfile := ""
  version := true
  help := true
  bare := false
  filepath := false
  xhtml := false
  dark := false

/-! ## Auxiliary definitions for the statements -/

/-- Test used to cut the heading: the token is not a `HeadingClose` of level `lvl`. -/
def notClose (lvl : Int) (tok : Token) : Bool :=
  decide (tok.asHeadingClose ≠ some lvl)

/-- The text of a run of tokens: their `getText`, concatenated in order. -/
def textOfAll (toks : List Token) : String :=
  String.join (toks.map getText)

/-- The value of `getTitle` by recursion on the sequence: skip to the first
`HeadingOpen`, take the tokens up to the matching `HeadingClose`, trim. -/
def titleOf : List Token → String
  | [] => ""
  | tok :: rest =>
    match tok.asHeadingOpen with
    | some lvl => TrimSpace (textOfAll (rest.takeWhile (notClose lvl)))
    | none => titleOf rest

mutual
/-- The reference definition `textOf` of the specification: a `Text` token gives
its literal content, an `Inline` token the concatenation, in child order, of
`textOf` of each child, any other variant the empty string. -/
def textOf : Token → String
  | .Text Content => Content
  | .Inline _ Children => textOf.children Children
  | _ => ""
/-- Concatenation, in child order, of `textOf` of each child. -/
def textOf.children : List Token → String
  | [] => ""
  | child :: rest => textOf child ++ textOf.children rest
end

/-- The token `u'` is the token `u` with `t` inserted among the children of an
`Inline`, at any depth inside `u`. -/
inductive InsertedIn (t : Token) : Token → Token → Prop where
  | here (c : String) (xs ys : List Token) :
      InsertedIn t (.Inline c (xs ++ ys)) (.Inline c (xs ++ t :: ys))
  | deeper (c : String) (xs ys : List Token) (u u' : Token) :
      InsertedIn t u u' → InsertedIn t (.Inline c (xs ++ u :: ys)) (.Inline c (xs ++ u' :: ys))

/-! ## Lemmas on strings -/

theorem join_cons (s : String) (l : List String) : String.join (s :: l) = s ++ String.join l := by
  apply String.ext
  simp [String.data_join]

theorem join_nil : String.join [] = "" := rfl

theorem join_append (l₁ l₂ : List String) :
    String.join (l₁ ++ l₂) = String.join l₁ ++ String.join l₂ := by
  apply String.ext
  simp [String.data_join]

theorem append_empty (s : String) : s ++ "" = s := by
  apply String.ext
  simp

theorem empty_append (s : String) : "" ++ s = s := by
  apply String.ext
  simp

theorem append_assoc (a b c : String) : a ++ b ++ c = a ++ (b ++ c) := by
  apply String.ext
  simp

/-! ## The loops of `getText` and `getTitle` -/

theorem getText_loop_eq (cs : List Token) (result : String) :
    getText.loop cs result = result ++ textOfAll cs := by
  induction cs generalizing result with
  | nil => simp [getText.loop, textOfAll, join_nil, append_empty]
  | cons tok rest ih =>
    rw [getText.loop, ih]
    simp [textOfAll, join_cons, append_assoc]

theorem textOfAll_nil : textOfAll [] = "" := rfl

theorem textOfAll_cons (tok : Token) (rest : List Token) :
    textOfAll (tok :: rest) = getText tok ++ textOfAll rest := by
  simp [textOfAll, join_cons]

theorem textOfAll_append (l₁ l₂ : List Token) :
    textOfAll (l₁ ++ l₂) = textOfAll l₁ ++ textOfAll l₂ := by
  simp [textOfAll, join_append]

theorem inner_eq (tokens : List Token) (lvl : Int) (fuel j : Nat) (result : String)
    (hfuel : tokens.length - j + 1 ≤ fuel) :
    getTitle.inner tokens lvl fuel j result =
      .ok (result ++ textOfAll ((tokens.drop j).takeWhile (notClose lvl))) := by
  induction fuel generalizing j result with
  | zero => omega
  | succ fuel ih =>
    unfold getTitle.inner
    by_cases hj : j < tokens.length
    · have hd : tokens.drop j = tokens[j] :: tokens.drop (j + 1) := List.drop_eq_getElem_cons hj
      rw [if_pos hj, List.getElem?_eq_getElem hj, hd]
      simp only []
      by_cases hc : tokens[j].asHeadingClose = some lvl
      · rw [if_pos hc]
        have : notClose lvl tokens[j] = false := by simp [notClose, hc]
        rw [List.takeWhile_cons, this]
        simp only [Bool.false_eq_true, if_false, textOfAll_nil, append_empty]
      · rw [if_neg hc, ih (j + 1) _ (by omega)]
        have : notClose lvl tokens[j] = true := by simp [notClose, hc]
        rw [List.takeWhile_cons, this]
        simp only [if_true, textOfAll_cons, append_assoc]
    · rw [if_neg hj, List.drop_eq_nil_of_le (by omega)]
      simp [textOfAll_nil, append_empty]

theorem outer_eq (tokens : List Token) (fuel i : Nat) (hfuel : tokens.length - i + 1 ≤ fuel) :
    getTitle.outer tokens fuel i = .ok (titleOf (tokens.drop i)) := by
  induction fuel generalizing i with
  | zero => omega
  | succ fuel ih =>
    unfold getTitle.outer
    by_cases hi : i < tokens.length
    · have hd : tokens.drop i = tokens[i] :: tokens.drop (i + 1) := List.drop_eq_getElem_cons hi
      rw [if_pos hi, List.getElem?_eq_getElem hi, hd]
      simp only []
      cases ho : tokens[i].asHeadingOpen with
      | none => simp only [titleOf, ho]; exact ih (i + 1) (by omega)
      | some lvl =>
        simp only [titleOf, ho]
        rw [inner_eq tokens lvl fuel (i + 1) "" (by omega), empty_append]
        rfl
    · rw [if_neg hi, List.drop_eq_nil_of_le (by omega)]
      rfl

theorem getTitleFuel_eq (tokens : List Token) (fuel : Nat) (hfuel : tokens.length + 1 ≤ fuel) :
    getTitleFuel fuel tokens = .ok (titleOf tokens) := by
  unfold getTitleFuel
  by_cases h : tokens.length > 0
  · rw [if_pos h, outer_eq tokens fuel 0 (by omega)]
    rfl
  · have : tokens = [] := List.length_eq_zero.mp (by omega)
    subst this
    rfl

theorem getTitle_eq (tokens : List Token) : getTitle tokens = .ok (titleOf tokens) :=
  getTitleFuel_eq tokens _ (Nat.le_refl _)

theorem titleOf_first_open (tokens : List Token) (i : Nat) (h L : Int)
    (hi : tokens[i]? = some (.HeadingOpen h L))
    (hfirst : ∀ i', i' < i → ∀ t, tokens[i']? = some t → t.asHeadingOpen = none) :
    titleOf tokens = TrimSpace (textOfAll ((tokens.drop (i + 1)).takeWhile (notClose L))) := by
  induction i generalizing tokens with
  | zero =>
    cases tokens with
    | nil => simp at hi
    | cons tok rest =>
      simp at hi
      subst hi
      simp [titleOf, Token.asHeadingOpen]
  | succ i ih =>
    cases tokens with
    | nil => simp at hi
    | cons tok rest =>
      have h0 : tok.asHeadingOpen = none := hfirst 0 (by omega) tok (by simp)
      simp only [titleOf, h0, List.drop_succ_cons]
      apply ih rest
      · simpa using hi
      · intro i' hi' t ht
        exact hfirst (i' + 1) (by omega) t (by simpa using ht)

theorem takeWhile_eq_take (p : Token → Bool) (l : List Token) (n : Nat) (hn : n ≤ l.length)
    (hbefore : ∀ j, j < n → ∀ t, l[j]? = some t → p t = true)
    (hat : n < l.length → ∃ t, l[n]? = some t ∧ p t = false) :
    l.takeWhile p = l.take n := by
  induction n generalizing l with
  | zero =>
    cases l with
    | nil => rfl
    | cons tok rest =>
      obtain ⟨t, ht, hp⟩ := hat (by simp)
      simp at ht
      subst ht
      simp [List.takeWhile_cons, hp]
  | succ n ih =>
    cases l with
    | nil => simp at hn
    | cons tok rest =>
      have h0 : p tok = true := hbefore 0 (by omega) tok (by simp)
      rw [List.takeWhile_cons, h0]
      simp only [if_true, List.take_succ_cons]
      congr 1
      apply ih rest (by simpa using hn)
      · intro j hj t ht
        exact hbefore (j + 1) (by omega) t (by simpa using ht)
      · intro hlt
        have := hat (by simpa using hlt)
        simpa using this

mutual
theorem getText_textOf : ∀ tok : Token, getText tok = textOf tok
  | .Text _ => by simp [getText, textOf]
  | .Inline _ cs => by
    rw [getText, textOf, getText_loop_eq, empty_append, textOfAll_textOf cs]
  | .HeadingOpen _ _ => by simp [getText, textOf]
  | .HeadingClose _ _ => by simp [getText, textOf]
  | .Other _ => by simp [getText, textOf]
theorem textOfAll_textOf : ∀ cs : List Token, textOfAll cs = textOf.children cs
  | [] => by simp [textOfAll_nil, textOf.children]
  | tok :: rest => by
    rw [textOfAll_cons, getText_textOf tok, textOfAll_textOf rest, textOf.children]
end

theorem titleOf_no_open (tokens : List Token) (hno : ∀ t ∈ tokens, t.asHeadingOpen = none) :
    titleOf tokens = "" := by
  induction tokens with
  | nil => rfl
  | cons tok rest ih =>
    have h0 : tok.asHeadingOpen = none := hno tok (by simp)
    simp only [titleOf, h0]
    exact ih (fun t ht => hno t (by simp [ht]))

theorem titleOf_open_close (tokens : List Token) (i k : Nat) (h L : Int)
    (hi : tokens[i]? = some (.HeadingOpen h L))
    (hfirst : ∀ i', i' < i → ∀ t, tokens[i']? = some t → t.asHeadingOpen = none)
    (hik : i < k) (hk : k ≤ tokens.length)
    (hmin : ∀ j, i < j → j < k → ∀ t, tokens[j]? = some t → t.asHeadingClose ≠ some L)
    (hclose : k < tokens.length → ∃ t, tokens[k]? = some t ∧ t.asHeadingClose = some L) :
    titleOf tokens = TrimSpace (textOfAll ((tokens.take k).drop (i + 1))) := by
  rw [titleOf_first_open tokens i h L hi hfirst]
  have hkk : i + 1 + (k - (i + 1)) = k := by omega
  rw [takeWhile_eq_take (notClose L) (tokens.drop (i + 1)) (k - (i + 1)), List.take_drop, hkk]
  · simp; omega
  · intro j hj t ht
    rw [List.getElem?_drop] at ht
    have := hmin (i + 1 + j) (by omega) (by omega) t ht
    simp [notClose, this]
  · intro hlt
    have hlt' : k < tokens.length := by simp at hlt; omega
    obtain ⟨t, ht, hc⟩ := hclose hlt'
    refine ⟨t, ?_, ?_⟩
    · rw [List.getElem?_drop, hkk]; exact ht
    · simp [notClose, hc]

/-! ## The claims on `getTitle` and `getText` -/

/-- C1: when the first `HeadingOpen` of the sequence is at index `i` with level
`L`, and `k` is the smallest index after `i` holding a `HeadingClose` of level
`L` (the length of the sequence when there is none), `getTitle` returns
`strings.TrimSpace` of the concatenation, in order, of `getText` of the tokens
strictly between `i` and `k`. -/
theorem getTitle_first_heading (tokens : List Token) (i k : Nat) (h L : Int)
    (hi : tokens[i]? = some (.HeadingOpen h L))
    (hfirst : ∀ i', i' < i → ∀ t, tokens[i']? = some t → t.asHeadingOpen = none)
    (hik : i < k) (hk : k ≤ tokens.length)
    (hmin : ∀ j, i < j → j < k → ∀ t, tokens[j]? = some t → t.asHeadingClose ≠ some L)
    (hclose : k < tokens.length → ∃ t, tokens[k]? = some t ∧ t.asHeadingClose = some L) :
    getTitle tokens = .ok (TrimSpace (textOfAll ((tokens.take k).drop (i + 1)))) := by
  rw [getTitle_eq, titleOf_open_close tokens i k h L hi hfirst hik hk hmin hclose]

/-- Witness of C1: `[HeadingOpen(1), Text("Hello "), Inline([Text("World")]),
HeadingClose(1)]` followed by further tokens gives `"Hello World"`. -/
theorem getTitle_first_heading_witness :
    getTitle [.HeadingOpen 1 1, .Text "Hello ", .Inline "World" [.Text "World"],
      .HeadingClose 1 1, .Text "after", .HeadingOpen 2 1, .Text "more", .HeadingClose 2 1] =
      .ok "Hello World" :=
  getTitle_first_heading
    [.HeadingOpen 1 1, .Text "Hello ", .Inline "World" [.Text "World"],
      .HeadingClose 1 1, .Text "after", .HeadingOpen 2 1, .Text "more", .HeadingClose 2 1]
    0 3 1 1 rfl (by intro i' hi'; omega) (by decide) (by decide)
    (by
      intro j h1 h2 t ht
      have hj : j = 1 ∨ j = 2 := by omega
      rcases hj with rfl | rfl <;> simp at ht <;> subst ht <;> simp [Token.asHeadingClose])
    (fun _ => ⟨.HeadingClose 1 1, rfl, rfl⟩)

/-- C2: for a token sequence with no `HeadingOpen` token, `getTitle` returns the
empty string. -/
theorem getTitle_no_heading (tokens : List Token)
    (hno : ∀ t ∈ tokens, t.asHeadingOpen = none) : getTitle tokens = .ok "" := by
  rw [getTitle_eq, titleOf_no_open tokens hno]

/-- Witness of C2: text, inline and closing tokens without an opening one. -/
theorem getTitle_no_heading_witness :
    getTitle [.Text "a", .Inline "b" [.Text "b"], .HeadingClose 1 0, .Other 3] = .ok "" :=
  getTitle_no_heading [.Text "a", .Inline "b" [.Text "b"], .HeadingClose 1 0, .Other 3]
    (by intro t ht; simp at ht; rcases ht with rfl | rfl | rfl | rfl <;> rfl)

/-- C3: `getText` equals the reference definition `textOf` on every token: a
`Text` token gives its content, an `Inline` token the concatenation in child
order of `getText` of its children (the empty string when it has none), every
other variant the empty string. -/
theorem getText_eq_textOf :
    (∀ tok : Token, getText tok = textOf tok) ∧
    (∀ c : String, getText (.Text c) = c) ∧
    (∀ (c : String) (cs : List Token), getText (.Inline c cs) = String.join (cs.map getText)) ∧
    (∀ c : String, getText (.Inline c []) = "") ∧
    (∀ h l : Int, getText (.HeadingOpen h l) = "") ∧
    (∀ h l : Int, getText (.HeadingClose h l) = "") ∧
    (∀ k : Nat, getText (.Other k) = "") := by
  refine ⟨getText_textOf, ?_, ?_, ?_, ?_, ?_, ?_⟩
  · intro c; simp [getText]
  · intro c cs; rw [getText, getText_loop_eq, empty_append]; rfl
  · intro c; rfl
  · intro h l; simp [getText]
  · intro h l; simp [getText]
  · intro k; simp [getText]

/-- C6: when no `HeadingClose` of the level of the first `HeadingOpen` follows
it, `getTitle` returns, without a fault, `strings.TrimSpace` of the concatenated
`getText` of every token after that `HeadingOpen` up to the end. -/
theorem getTitle_missing_close (tokens : List Token) (i : Nat) (h L : Int)
    (hi : tokens[i]? = some (.HeadingOpen h L))
    (hfirst : ∀ i', i' < i → ∀ t, tokens[i']? = some t → t.asHeadingOpen = none)
    (hnone : ∀ j, i < j → ∀ t, tokens[j]? = some t → t.asHeadingClose ≠ some L) :
    getTitle tokens = .ok (TrimSpace (textOfAll (tokens.drop (i + 1)))) := by
  have hlen : i < tokens.length := by
    by_contra hge
    rw [List.getElem?_eq_none (by omega)] at hi
    exact absurd hi (by simp)
  rw [getTitle_eq, titleOf_open_close tokens i tokens.length h L hi hfirst hlen (Nat.le_refl _)
    (fun j h1 _ t ht => hnone j h1 t ht) (fun hlt => absurd hlt (Nat.lt_irrefl _)), List.take_length]

/-- Witness of C6: a second `HeadingOpen` of the same level and a `HeadingClose`
of another level, no matching close. -/
theorem getTitle_missing_close_witness :
    getTitle [.Text "x", .HeadingOpen 1 1, .Text " A ", .HeadingOpen 2 1, .Text "B",
      .HeadingClose 2 2] = .ok "A B" :=
  getTitle_missing_close
    [.Text "x", .HeadingOpen 1 1, .Text " A ", .HeadingOpen 2 1, .Text "B", .HeadingClose 2 2]
    1 1 1 rfl
    (by
      intro i' hi' t ht
      have h0 : i' = 0 := by omega
      subst h0
      simp at ht
      subst ht
      rfl)
    (by
      intro j hj t ht
      have hlt : j < 6 := by
        by_contra hge
        rw [List.getElem?_eq_none (by simpa using hge)] at ht
        exact absurd ht (by simp)
      have hj' : j = 2 ∨ j = 3 ∨ j = 4 ∨ j = 5 := by omega
      rcases hj' with rfl | rfl | rfl | rfl <;> simp at ht <;> subst ht <;>
        simp [Token.asHeadingClose])

theorem inner_in_bounds (tokens : List Token) (lvl : Int) (fuel j : Nat) (result : String) :
    getTitle.inner tokens lvl fuel j result ≠ .error .indexOutOfRange := by
  induction fuel generalizing j result with
  | zero => simp [getTitle.inner]
  | succ fuel ih =>
    unfold getTitle.inner
    by_cases hj : j < tokens.length
    · rw [if_pos hj, List.getElem?_eq_getElem hj]
      simp only []
      by_cases hc : tokens[j].asHeadingClose = some lvl
      · rw [if_pos hc]; simp
      · rw [if_neg hc]; exact ih _ _
    · rw [if_neg hj]; simp

theorem outer_in_bounds (tokens : List Token) (fuel i : Nat) :
    getTitle.outer tokens fuel i ≠ .error .indexOutOfRange := by
  induction fuel generalizing i with
  | zero => simp [getTitle.outer]
  | succ fuel ih =>
    unfold getTitle.outer
    by_cases hi : i < tokens.length
    · rw [if_pos hi, List.getElem?_eq_getElem hi]
      simp only []
      cases ho : tokens[i].asHeadingOpen with
      | none => exact ih _
      | some lvl =>
        simp only []
        have hin := inner_in_bounds tokens lvl fuel (i + 1) ""
        cases hr : getTitle.inner tokens lvl fuel (i + 1) "" with
        | ok s => simp [Except.map]
        | error e =>
          rw [hr] at hin
          simp only [Except.map]
          intro he
          exact hin (by rw [Except.error.inj he])
    · rw [if_neg hi]; simp

theorem getTitleFuel_in_bounds (tokens : List Token) (fuel : Nat) :
    getTitleFuel fuel tokens ≠ .error .indexOutOfRange := by
  unfold getTitleFuel
  by_cases h : tokens.length > 0
  · rw [if_pos h]; exact outer_in_bounds tokens fuel 0
  · rw [if_neg h]; simp

/-- C7: `getTitle` is total: with `len(tokens) + 1` tests of a loop condition, or
any larger number, the two loops end with a string, never with an index out of
range and never short of fuel, and no number of tests lets a read `tokens[i]` or
`tokens[j]` fall out of range; `getText` is a structural recursion on the
children and needs no fuel. -/
theorem getTitle_total (tokens : List Token) (fuel : Nat) (hfuel : tokens.length + 1 ≤ fuel) :
    (∃ title, getTitleFuel fuel tokens = .ok title ∧ getTitle tokens = .ok title) ∧
    (∀ n, getTitleFuel n tokens ≠ .error .indexOutOfRange) :=
  ⟨⟨titleOf tokens, getTitleFuel_eq tokens fuel hfuel, getTitle_eq tokens⟩,
    getTitleFuel_in_bounds tokens⟩

/-- Witness of C7: a three-token sequence run with four tests. -/
theorem getTitle_total_witness :
    ∃ title, getTitleFuel 4 [.HeadingOpen 1 0, .Text "T", .HeadingOpen 1 0] = .ok title ∧
      getTitle [.HeadingOpen 1 0, .Text "T", .HeadingOpen 1 0] = .ok title :=
  (getTitle_total [.HeadingOpen 1 0, .Text "T", .HeadingOpen 1 0] 4 (by decide)).1

/-! ## `strings.TrimSpace` on the result -/

theorem rdropWhile_append_rtakeWhile (p : Char → Bool) (l : List Char) :
    l.rdropWhile p ++ l.rtakeWhile p = l := by
  have h := congrArg List.reverse (List.takeWhile_append_dropWhile p l.reverse)
  rw [List.reverse_append, List.reverse_reverse] at h
  exact h

theorem trim_head (p : Char → Bool) (l : List Char) (c : Char)
    (hc : ((l.dropWhile p).rdropWhile p).head? = some c) : p c = false := by
  obtain ⟨t, ht⟩ := List.rdropWhile_prefix p (l := l.dropWhile p)
  have hd := List.head?_dropWhile_not p l
  cases hm : (l.dropWhile p).rdropWhile p with
  | nil => rw [hm] at hc; simp at hc
  | cons x m =>
    rw [hm] at hc ht
    simp at hc
    subst hc
    rw [← ht] at hd
    simpa using hd

theorem trim_last (p : Char → Bool) (l : List Char) (c : Char)
    (hc : ((l.dropWhile p).rdropWhile p).getLast? = some c) : p c = false := by
  have hne : (l.dropWhile p).rdropWhile p ≠ [] := by
    intro h0
    rw [h0] at hc
    simp at hc
  have hl := List.rdropWhile_last_not p (l.dropWhile p) hne
  rw [List.getLast?_eq_getLast _ hne] at hc
  simp at hc
  rw [hc] at hl
  simpa using hl

theorem trim_idem (p : Char → Bool) (l : List Char) :
    ((((l.dropWhile p).rdropWhile p).dropWhile p).rdropWhile p) =
      (l.dropWhile p).rdropWhile p := by
  have hd : ((l.dropWhile p).rdropWhile p).dropWhile p = (l.dropWhile p).rdropWhile p := by
    cases hm : (l.dropWhile p).rdropWhile p with
    | nil => rfl
    | cons x m =>
      have hx : p x = false := trim_head p l x (by rw [hm]; rfl)
      simp [List.dropWhile_cons, hx]
  rw [hd]
  exact List.rdropWhile_idempotent p _

theorem TrimSpace_idem (s : String) : TrimSpace (TrimSpace s) = TrimSpace s := by
  apply String.ext
  exact trim_idem isSpace s.data

theorem TrimSpace_decomp (s : String) :
    ∃ pre suf : String, s = pre ++ TrimSpace s ++ suf ∧
      (∀ c ∈ pre.data, isSpace c = true) ∧ (∀ c ∈ suf.data, isSpace c = true) := by
  refine ⟨⟨s.data.takeWhile isSpace⟩, ⟨(s.data.dropWhile isSpace).rtakeWhile isSpace⟩, ?_, ?_, ?_⟩
  · apply String.ext
    simp only [String.data_append, TrimSpace, List.append_assoc]
    rw [rdropWhile_append_rtakeWhile, List.takeWhile_append_dropWhile]
  · intro c hc
    exact List.mem_takeWhile_imp hc
  · intro c hc
    exact List.mem_rtakeWhile_imp hc

theorem titleOf_trimmed (tokens : List Token) : ∃ s, titleOf tokens = TrimSpace s := by
  induction tokens with
  | nil => exact ⟨"", rfl⟩
  | cons tok rest ih =>
    cases ho : tok.asHeadingOpen with
    | none => simpa only [titleOf, ho] using ih
    | some lvl =>
      refine ⟨textOfAll (rest.takeWhile (notClose lvl)), ?_⟩
      simp only [titleOf, ho]

/-- C4: the string `getTitle` returns is trimmed: `strings.TrimSpace` leaves it
unchanged, it neither begins nor ends with a white space character, and it is
the text accumulated by the inner loop less a prefix and a suffix made of white
space only, so that white space in the interior is kept. -/
theorem getTitle_trimmed (tokens : List Token) :
    ∃ title, getTitle tokens = .ok title ∧ TrimSpace title = title ∧
      (∀ c, title.data.head? = some c → isSpace c = false) ∧
      (∀ c, title.data.getLast? = some c → isSpace c = false) ∧
      (∀ i h L, tokens[i]? = some (.HeadingOpen h L) →
        (∀ i', i' < i → ∀ t, tokens[i']? = some t → t.asHeadingOpen = none) →
        ∃ acc pre suf, getTitle.inner tokens L (tokens.length - i) (i + 1) "" = .ok acc ∧
          acc = pre ++ title ++ suf ∧
          (∀ c ∈ pre.data, isSpace c = true) ∧ (∀ c ∈ suf.data, isSpace c = true)) := by
  obtain ⟨s, hs⟩ := titleOf_trimmed tokens
  refine ⟨titleOf tokens, getTitle_eq tokens, ?_, ?_, ?_, ?_⟩
  · rw [hs, TrimSpace_idem]
  · intro c hc
    rw [hs] at hc
    exact trim_head isSpace s.data c hc
  · intro c hc
    rw [hs] at hc
    exact trim_last isSpace s.data c hc
  · intro i h L hi hfirst
    have hlen : i < tokens.length := by
      by_contra hge
      rw [List.getElem?_eq_none (by omega)] at hi
      exact absurd hi (by simp)
    obtain ⟨pre, suf, hdec, hpre, hsuf⟩ :=
      TrimSpace_decomp (textOfAll ((tokens.drop (i + 1)).takeWhile (notClose L)))
    refine ⟨_, pre, suf, inner_eq tokens L _ (i + 1) "" (by omega), ?_, hpre, hsuf⟩
    rw [empty_append, titleOf_first_open tokens i h L hi hfirst]
    exact hdec

/-- Witness of C4: `Text("  My  Title  ")` between heading markers yields
`"My  Title"`. -/
theorem getTitle_trimmed_witness :
    getTitle [.HeadingOpen 1 1, .Text "  My  Title  ", .HeadingClose 1 1] = .ok "My  Title" ∧
    ∃ title, getTitle [.HeadingOpen 1 1, .Text "  My  Title  ", .HeadingClose 1 1] = .ok title ∧
      TrimSpace title = title ∧
      (∀ c, title.data.head? = some c → isSpace c = false) ∧
      (∀ c, title.data.getLast? = some c → isSpace c = false) ∧
      (∀ i h L,
        [Token.HeadingOpen 1 1, .Text "  My  Title  ", .HeadingClose 1 1][i]? =
          some (.HeadingOpen h L) →
        (∀ i', i' < i → ∀ t,
          [Token.HeadingOpen 1 1, .Text "  My  Title  ", .HeadingClose 1 1][i']? = some t →
          t.asHeadingOpen = none) →
        ∃ acc pre suf,
          getTitle.inner [.HeadingOpen 1 1, .Text "  My  Title  ", .HeadingClose 1 1] L
            ([Token.HeadingOpen 1 1, .Text "  My  Title  ", .HeadingClose 1 1].length - i)
            (i + 1) "" = .ok acc ∧
          acc = pre ++ title ++ suf ∧
          (∀ c ∈ pre.data, isSpace c = true) ∧ (∀ c ∈ suf.data, isSpace c = true)) :=
  ⟨by decide, getTitle_trimmed [.HeadingOpen 1 1, .Text "  My  Title  ", .HeadingClose 1 1]⟩

/-! ## Tokens without text -/

theorem getText_inline (c : String) (cs : List Token) : getText (.Inline c cs) = textOfAll cs := by
  rw [getText, getText_loop_eq, empty_append]

theorem getText_nontext (t : Token) (htext : ∀ c, t ≠ .Text c)
    (hinline : ∀ c cs, t ≠ .Inline c cs) : getText t = "" := by
  cases t with
  | Text c => exact absurd rfl (htext c)
  | Inline c cs => exact absurd rfl (hinline c cs)
  | HeadingOpen _ _ => simp [getText]
  | HeadingClose _ _ => simp [getText]
  | Other _ => simp [getText]

theorem takeWhile_text_congr (L : Int) (a r : List Token) (t₁ t₂ : Token)
    (hp : notClose L t₁ = notClose L t₂) (hg : getText t₁ = getText t₂) :
    textOfAll ((a ++ t₁ :: r).takeWhile (notClose L)) =
      textOfAll ((a ++ t₂ :: r).takeWhile (notClose L)) := by
  induction a with
  | nil =>
    simp only [List.nil_append, List.takeWhile_cons, hp]
    cases notClose L t₂ with
    | false => rfl
    | true => simp only [if_true, textOfAll_cons, hg]
  | cons x a ih =>
    simp only [List.cons_append, List.takeWhile_cons]
    cases notClose L x with
    | false => rfl
    | true => simp only [if_true, textOfAll_cons, ih]

theorem takeWhile_text_skip (L : Int) (a r : List Token) (t : Token)
    (hp : notClose L t = true) (hg : getText t = "") :
    textOfAll ((a ++ t :: r).takeWhile (notClose L)) =
      textOfAll ((a ++ r).takeWhile (notClose L)) := by
  induction a with
  | nil =>
    simp only [List.nil_append, List.takeWhile_cons, hp, if_true, textOfAll_cons, hg, empty_append]
  | cons x a ih =>
    simp only [List.cons_append, List.takeWhile_cons]
    cases notClose L x with
    | false => rfl
    | true => simp only [if_true, textOfAll_cons, ih]

theorem getText_insertedIn (t u u' : Token) (hg : getText t = "") (hins : InsertedIn t u u') :
    getText u' = getText u := by
  induction hins with
  | here c xs ys =>
    rw [getText_inline, getText_inline, textOfAll_append, textOfAll_append, textOfAll_cons, hg,
      empty_append]
  | deeper c xs ys v v' _ ih =>
    rw [getText_inline, getText_inline, textOfAll_append, textOfAll_append, textOfAll_cons,
      textOfAll_cons, ih]

theorem notClose_insertedIn (L : Int) (t u u' : Token) (hins : InsertedIn t u u') :
    notClose L u' = notClose L u := by
  cases hins <;> rfl

/-- C5: a token that is neither a `Text`, nor an `Inline`, nor a `HeadingClose`
of level `L` contributes nothing to the title: inserted anywhere between
`HeadingOpen(L)` and `HeadingClose(L)`, or among the children of an `Inline` at
any depth there, it leaves the result of `getTitle` unchanged. -/
theorem getTitle_nontext_token (h h' L : Int) (a b : List Token) (t : Token)
    (hclose : t.asHeadingClose ≠ some L) (htext : ∀ c, t ≠ .Text c)
    (hinline : ∀ c cs, t ≠ .Inline c cs) :
    getTitle ([.HeadingOpen h L] ++ a ++ [t] ++ b ++ [.HeadingClose h' L]) =
      getTitle ([.HeadingOpen h L] ++ a ++ b ++ [.HeadingClose h' L]) ∧
    ∀ u u', InsertedIn t u u' →
      getText u' = getText u ∧
      getTitle ([.HeadingOpen h L] ++ a ++ [u'] ++ b ++ [.HeadingClose h' L]) =
        getTitle ([.HeadingOpen h L] ++ a ++ [u] ++ b ++ [.HeadingClose h' L]) := by
  have hg : getText t = "" := getText_nontext t htext hinline
  have hp : notClose L t = true := by simp [notClose, hclose]
  constructor
  · have e₁ : [Token.HeadingOpen h L] ++ a ++ [t] ++ b ++ [.HeadingClose h' L] =
        .HeadingOpen h L :: (a ++ t :: (b ++ [.HeadingClose h' L])) := by simp
    have e₂ : [Token.HeadingOpen h L] ++ a ++ b ++ [.HeadingClose h' L] =
        .HeadingOpen h L :: (a ++ (b ++ [.HeadingClose h' L])) := by simp
    rw [getTitle_eq, getTitle_eq, e₁, e₂]
    simp only [titleOf, Token.asHeadingOpen]
    rw [takeWhile_text_skip L a _ t hp hg]
  · intro u u' hins
    have hgu := getText_insertedIn t u u' hg hins
    refine ⟨hgu, ?_⟩
    have e (v : Token) : [Token.HeadingOpen h L] ++ a ++ [v] ++ b ++ [.HeadingClose h' L] =
        .HeadingOpen h L :: (a ++ v :: (b ++ [.HeadingClose h' L])) := by simp
    rw [getTitle_eq, getTitle_eq, e u', e u]
    simp only [titleOf, Token.asHeadingOpen]
    rw [takeWhile_text_congr L a _ u' u (notClose_insertedIn L t u u' hins) hgu]

/-- Witness of C5: an image token after the text of the heading, and the same
token inside an `Inline` nested in an `Inline`. -/
theorem getTitle_nontext_token_witness :
    getTitle [.HeadingOpen 1 0, .Text "A", .Other 7, .Text "B", .HeadingClose 1 0] =
      getTitle [.HeadingOpen 1 0, .Text "A", .Text "B", .HeadingClose 1 0] ∧
    getText (.Inline "" [.Inline "" [.Text "x", .Other 7]]) =
      getText (.Inline "" [.Inline "" [.Text "x"]]) :=
  ⟨(getTitle_nontext_token 1 1 0 [.Text "A"] [.Text "B"] (.Other 7) (by simp [Token.asHeadingClose])
      (by intro c hc; cases hc) (by intro c cs hc; cases hc)).1,
    ((getTitle_nontext_token 1 1 0 [.Text "A"] [.Text "B"] (.Other 7)
      (by simp [Token.asHeadingClose]) (by intro c hc; cases hc)
      (by intro c cs hc; cases hc)).2 _ _
      (InsertedIn.deeper "" [] [] _ _ (InsertedIn.here "" [.Text "x"] []))).1⟩

/-! ## Output routing in `main` -/

theorem stdoutBytes_append (l₁ l₂ : List Event) :
    stdoutBytes (l₁ ++ l₂) = stdoutBytes l₁ ++ stdoutBytes l₂ := by
  induction l₁ with
  | nil => simp [stdoutBytes, empty_append]
  | cons e l ih => cases e <;> simp [stdoutBytes, ih, append_assoc]

theorem fileBytes_append (name : String) (l₁ l₂ : List Event) :
    fileBytes name (l₁ ++ l₂) = fileBytes name l₁ ++ fileBytes name l₂ := by
  induction l₁ with
  | nil => simp [fileBytes, empty_append]
  | cons e l ih =>
    cases e with
    | write n bytes =>
      by_cases hn : n = name <;> simp [fileBytes, hn, ih, append_assoc]
    | _ => simp [fileBytes, ih]

theorem getTempDir_events (env : Env) :
    (getTempDir env).1 = [] ∨ ∃ d, (getTempDir env).1 = [.mkdir d] := by
  unfold getTempDir
  by_cases h₁ : env.snapUserCommon ≠ ""
  · rw [if_pos h₁]
    by_cases h₂ : env.statNotExist (env.home ++ "/mdview-temp") = true
    · by_cases h₃ : env.mkdirOk (env.home ++ "/mdview-temp") = true
      · simp only [h₂, h₃, if_true]; exact Or.inr ⟨_, rfl⟩
      · simp only [h₂, h₃, if_true, if_false]; exact Or.inr ⟨_, rfl⟩
    · simp only [h₂, if_false]; exact Or.inl rfl
  · rw [if_neg h₁]; exact Or.inl rfl

theorem tempFileName_events (env : Env) (pre suffix : String) :
    (tempFileName env pre suffix).1 = (getTempDir env).1 := by
  unfold tempFileName
  rcases hd : getTempDir env with ⟨evs, _ | dir⟩ <;> rfl

theorem outfilePath_quiet (env : Env) (fl : Flags) (evs : List Event) (r : Option String)
    (hpath : main.outfilePath env fl = (evs, r)) :
    stdoutBytes evs = "" ∧ ∀ name, fileBytes name evs = "" := by
  have hevs : evs = (main.outfilePath env fl).1 := by rw [hpath]
  have hcases : evs = [] ∨ ∃ d, evs = [.mkdir d] := by
    rw [hevs]
    unfold main.outfilePath
    by_cases ho : fl.outfile = ""
    · rw [if_pos ho, tempFileName_events]; exact getTempDir_events env
    · rw [if_neg ho]; exact Or.inl rfl
  rcases hcases with rfl | ⟨d, rfl⟩
  · exact ⟨rfl, fun _ => rfl⟩
  · exact ⟨rfl, fun _ => rfl⟩

theorem main_reaches_route (env : Env) (fl : Flags) (inputFilename dat title outfilePath : String)
    (evs : List Event)
    (hversion : fl.version = false) (hinput : inputFilename ≠ "") (hhelp : fl.help = false)
    (hread : env.readFile inputFilename = some dat)
    (htitle : getTitle (env.parse fl.xhtml dat) = .ok title)
    (hpath : main.outfilePath env fl = (evs, some outfilePath))
    (hcreate : env.createOk outfilePath = true) (hwrite : env.fprintfOk = true) :
    main env fl inputFilename =
      ⟨.readFile inputFilename :: evs ++
        [.create outfilePath,
          .write outfilePath (Sprintf env.fmtMore template
            [actualStyle fl, title, env.renderTokensToString fl.xhtml (env.parse fl.xhtml dat)]),
          .sync outfilePath] ++
        (main.route env fl outfilePath title
          (env.renderTokensToString fl.xhtml (env.parse fl.xhtml dat))).1 ++
        [.close outfilePath],
        (main.route env fl outfilePath title
          (env.renderTokensToString fl.xhtml (env.parse fl.xhtml dat))).2⟩ := by
  unfold main
  simp [hversion, hinput, hhelp, hread, htitle, hpath, hcreate, hwrite]

theorem doPrintf_no_percent (more : FmtRest) (l : List Char) (hl : '%' ∉ l) :
    doPrintf more [] l 0 = l := by
  induction l with
  | nil => simp [doPrintf, extraArgs]
  | cons c l ih =>
    have hc : c ≠ '%' := fun h => hl (by simp [h])
    have hl' : '%' ∉ l := fun h => hl (by simp [h])
    rw [doPrintf.eq_def]
    simp only [hc, ne_eq, not_false_eq_true, if_true, ih hl']

theorem Sprintf_no_percent (more : FmtRest) (s : String) (hs : '%' ∉ s.data) :
    Sprintf more s [] = s := by
  apply String.ext
  exact doPrintf_no_percent more s.data hs

theorem stdoutBytes_run (inputFilename outfilePath page : String) (evs acts : List Event)
    (hq : stdoutBytes evs = "") :
    stdoutBytes (.readFile inputFilename :: evs ++
      [.create outfilePath, .write outfilePath page, .sync outfilePath] ++ acts ++
      [.close outfilePath]) = stdoutBytes acts := by
  have e : (Event.readFile inputFilename :: evs ++
      [.create outfilePath, .write outfilePath page, .sync outfilePath] ++ acts ++
      [.close outfilePath]) = [Event.readFile inputFilename] ++ (evs ++
      ([.create outfilePath, .write outfilePath page, .sync outfilePath] ++ (acts ++
      [.close outfilePath]))) := by simp
  have h₁ : stdoutBytes [Event.readFile inputFilename] = "" := rfl
  have h₂ : stdoutBytes [Event.create outfilePath, .write outfilePath page,
      .sync outfilePath] = "" := rfl
  have h₃ : stdoutBytes [Event.close outfilePath] = "" := rfl
  rw [e, stdoutBytes_append, stdoutBytes_append, stdoutBytes_append, stdoutBytes_append, hq, h₁,
    h₂, h₃, empty_append, empty_append, empty_append, append_empty]

theorem fileBytes_run (inputFilename outfilePath page : String) (evs acts : List Event)
    (hq : fileBytes outfilePath evs = "") :
    fileBytes outfilePath (.readFile inputFilename :: evs ++
      [.create outfilePath, .write outfilePath page, .sync outfilePath] ++ acts ++
      [.close outfilePath]) = page ++ fileBytes outfilePath acts := by
  have e : (Event.readFile inputFilename :: evs ++
      [.create outfilePath, .write outfilePath page, .sync outfilePath] ++ acts ++
      [.close outfilePath]) = [Event.readFile inputFilename] ++ (evs ++
      ([.create outfilePath, .write outfilePath page, .sync outfilePath] ++ (acts ++
      [.close outfilePath]))) := by simp
  have h₁ : fileBytes outfilePath [Event.readFile inputFilename] = "" := rfl
  have h₂ : fileBytes outfilePath [Event.create outfilePath, .write outfilePath page,
      .sync outfilePath] = page := by
    simp [fileBytes, append_empty]
  have h₃ : fileBytes outfilePath [Event.close outfilePath] = "" := rfl
  rw [e, fileBytes_append, fileBytes_append, fileBytes_append, fileBytes_append, hq, h₁,
    h₂, h₃, empty_append, empty_append, append_empty]

theorem main_path_only (env : Env) (fl : Flags) (inputFilename dat title outfilePath : String)
    (evs : List Event) (mode : Nat)
    (hversion : fl.version = false) (hinput : inputFilename ≠ "") (hhelp : fl.help = false)
    (hread : env.readFile inputFilename = some dat)
    (htitle : getTitle (env.parse fl.xhtml dat) = .ok title)
    (hpath : main.outfilePath env fl = (evs, some outfilePath))
    (hcreate : env.createOk outfilePath = true) (hwrite : env.fprintfOk = true)
    (hstat : env.stdoutMode = some mode) (hpipe : mode &&& ModeCharDevice ≠ ModeCharDevice)
    (hflag : fl.filepath = true) :
    stdoutBytes (main env fl inputFilename).trace = Sprintf env.fmtMore outfilePath [] ∧
      ('%' ∉ outfilePath.data → stdoutBytes (main env fl inputFilename).trace = outfilePath) := by
  have hout : stdoutBytes (main env fl inputFilename).trace =
      Sprintf env.fmtMore outfilePath [] := by
    rw [main_reaches_route env fl inputFilename dat title outfilePath evs hversion hinput hhelp
      hread htitle hpath hcreate hwrite]
    rw [stdoutBytes_run _ _ _ _ _ (outfilePath_quiet env fl evs _ hpath).1]
    simp only [main.route, hstat, hpipe, hflag, if_true, if_false, stdoutBytes, append_empty]
  exact ⟨hout, fun hs => by rw [hout, Sprintf_no_percent _ _ hs]⟩

/-- C8: with standard output redirected and the path-only flag set, `main` hands
the destination path to `fmt.Printf` as the format string; run as
`mdview -f -o 50%off.html doc.md` it returns normally and writes
`50%!o(MISSING)ff.html` to standard output, which is not the destination path. -/
theorem main_path_only_percent :
    (main pipeEnv percentFlags "doc.md").outcome = .returned ∧
    stdoutBytes (main pipeEnv percentFlags "doc.md").trace = "50%!o(MISSING)ff.html" ∧
    stdoutBytes (main pipeEnv percentFlags "doc.md").trace ≠ percentFlags.outfile := by
  decide

/-- The trace of a run that reaches output routing: create, write of the
materialised page, sync, one action, close.  The action depends on the mode of
standard output and the path-only flag alone: on a character device, terminal
or not, `main` opens the destination and writes nothing to standard output;
otherwise with the path-only flag it prints through `fmt.Printf` the path (the
path itself when it holds no `%`); otherwise it prints the page. -/
theorem main_route_trace (env : Env) (fl : Flags) (inputFilename dat title outfilePath : String)
    (evs : List Event) (mode : Nat)
    (hversion : fl.version = false) (hinput : inputFilename ≠ "") (hhelp : fl.help = false)
    (hread : env.readFile inputFilename = some dat)
    (htitle : getTitle (env.parse fl.xhtml dat) = .ok title)
    (hpath : main.outfilePath env fl = (evs, some outfilePath))
    (hcreate : env.createOk outfilePath = true) (hwrite : env.fprintfOk = true)
    (hstat : env.stdoutMode = some mode) :
    (main env fl inputFilename).trace =
      .readFile inputFilename :: evs ++
        [.create outfilePath,
          .write outfilePath (Sprintf env.fmtMore template
            [actualStyle fl, title, env.renderTokensToString fl.xhtml (env.parse fl.xhtml dat)]),
          .sync outfilePath,
          if mode &&& ModeCharDevice = ModeCharDevice then .openFile outfilePath
          else if fl.filepath = true then .stdout (Sprintf env.fmtMore outfilePath [])
          else .stdout (Sprintf env.fmtMore template
            [actualStyle fl, title, env.renderTokensToString fl.xhtml (env.parse fl.xhtml dat)]),
          .close outfilePath] ∧
    (mode &&& ModeCharDevice = ModeCharDevice →
      stdoutBytes (main env fl inputFilename).trace = "") ∧
    ('%' ∉ outfilePath.data → Sprintf env.fmtMore outfilePath [] = outfilePath) := by
  rw [main_reaches_route env fl inputFilename dat title outfilePath evs hversion hinput hhelp
    hread htitle hpath hcreate hwrite]
  refine ⟨?_, ?_, Sprintf_no_percent _ _⟩
  · by_cases hterm : mode &&& ModeCharDevice = ModeCharDevice
    · simp [main.route, hstat, hterm]
    · by_cases hflag : fl.filepath = true
      · simp [main.route, hstat, hterm, hflag]
      · simp [main.route, hstat, hterm, hflag]
  · intro hterm
    rw [stdoutBytes_run _ _ _ _ _ (outfilePath_quiet env fl evs _ hpath).1]
    simp only [main.route, hstat, hterm, if_true, stdoutBytes]

/-- The trace of `mdview -f -o out.html doc.md` with standard output a pipe. -/
theorem main_route_trace_pipe :
    (main pipeEnv pathFlags "doc.md").trace =
      [.readFile "doc.md", .create "out.html",
        .write "out.html" (Sprintf pipeEnv.fmtMore template [style, "Doc", "<h1>Doc</h1><p>100%</p>"]),
        .sync "out.html", .stdout "out.html", .close "out.html"] :=
  (main_route_trace pipeEnv pathFlags "doc.md" "# Doc\n\n100%" "Doc" "out.html" [] 0 rfl (by decide) rfl rfl
    (by decide) rfl rfl rfl rfl).1

/-- With standard output no character device and the path-only flag unset, the
bytes written to standard output are the bytes written to the destination file,
the materialised page, whatever the stylesheet, the title and the body hold. -/
theorem main_pipe_stdout_eq_file (env : Env) (fl : Flags)
    (inputFilename dat title outfilePath : String) (evs : List Event) (mode : Nat)
    (hversion : fl.version = false) (hinput : inputFilename ≠ "") (hhelp : fl.help = false)
    (hread : env.readFile inputFilename = some dat)
    (htitle : getTitle (env.parse fl.xhtml dat) = .ok title)
    (hpath : main.outfilePath env fl = (evs, some outfilePath))
    (hcreate : env.createOk outfilePath = true) (hwrite : env.fprintfOk = true)
    (hstat : env.stdoutMode = some mode) (hpipe : mode &&& ModeCharDevice ≠ ModeCharDevice)
    (hflag : fl.filepath = false) :
    stdoutBytes (main env fl inputFilename).trace =
      fileBytes outfilePath (main env fl inputFilename).trace ∧
    fileBytes outfilePath (main env fl inputFilename).trace =
      Sprintf env.fmtMore template
        [actualStyle fl, title, env.renderTokensToString fl.xhtml (env.parse fl.xhtml dat)] := by
  rw [main_reaches_route env fl inputFilename dat title outfilePath evs hversion hinput hhelp
    hread htitle hpath hcreate hwrite]
  obtain ⟨hq₁, hq₂⟩ := outfilePath_quiet env fl evs _ hpath
  rw [stdoutBytes_run _ _ _ _ _ hq₁, fileBytes_run _ _ _ _ _ (hq₂ outfilePath)]
  simp only [main.route, hstat, hpipe, hflag, if_false, Bool.false_eq_true, stdoutBytes,
    fileBytes, append_empty, and_self]

/-- Standard output a pipe, `-o out.html`, a body with `%`: the same bytes on
standard output and in the file. -/
theorem main_pipe_stdout_eq_file_sample :
    stdoutBytes (main pipeEnv pageFlags "doc.md").trace =
      fileBytes "out.html" (main pipeEnv pageFlags "doc.md").trace ∧
    fileBytes "out.html" (main pipeEnv pageFlags "doc.md").trace =
      Sprintf pipeEnv.fmtMore template [style, "Doc", "<h1>Doc</h1><p>100%</p>"] :=
  main_pipe_stdout_eq_file pipeEnv pageFlags "doc.md" "# Doc\n\n100%" "Doc" "out.html" [] 0 rfl (by decide)
    rfl rfl (by decide) rfl rfl rfl rfl (by decide) rfl

/-! ## The page and its stylesheet -/

set_option maxRecDepth 100000 in
/-- C11: for every stylesheet, title and body the materialised page, the
template formatted with the three strings, is the fixed text of the template
with the three strings inserted verbatim, once each and in that order; a `%`
inside them is not read as a verb. -/
theorem Sprintf_template (more : FmtRest) (css title body : String) :
    Sprintf more template [css, title, body] =
      "<!DOCTYPE html><html><head><meta http-equiv=\"content-type\" content=\"text/html; charset=utf-8\"> <style>"
        ++ css ++ "</style><title>" ++ title ++
        "</title></head><body class=\"markdown-body\">" ++ body ++ "</body></html>" := by
  apply String.ext
  simp only [String.data_append, List.append_assoc]
  rfl

theorem actualStyle_bare_only (fl : Flags) (hbare : fl.bare = true) (hdark : fl.dark = false) :
    actualStyle fl = "" := by
  simp [actualStyle, hbare, hdark]

theorem route_fileBytes (env : Env) (fl : Flags) (outfilePath title html name : String) :
    fileBytes name (main.route env fl outfilePath title html).1 = "" := by
  unfold main.route
  cases env.stdoutMode with
  | none => rfl
  | some mode =>
    by_cases hterm : mode &&& ModeCharDevice = ModeCharDevice
    · simp only [hterm, if_true]; rfl
    · simp only [hterm, if_false]; rfl

theorem main_fileBytes (env : Env) (fl : Flags) (inputFilename dat title outfilePath : String)
    (evs : List Event)
    (hversion : fl.version = false) (hinput : inputFilename ≠ "") (hhelp : fl.help = false)
    (hread : env.readFile inputFilename = some dat)
    (htitle : getTitle (env.parse fl.xhtml dat) = .ok title)
    (hpath : main.outfilePath env fl = (evs, some outfilePath))
    (hcreate : env.createOk outfilePath = true) (hwrite : env.fprintfOk = true) :
    fileBytes outfilePath (main env fl inputFilename).trace =
      Sprintf env.fmtMore template
        [actualStyle fl, title, env.renderTokensToString fl.xhtml (env.parse fl.xhtml dat)] := by
  rw [main_reaches_route env fl inputFilename dat title outfilePath evs hversion hinput hhelp
    hread htitle hpath hcreate hwrite]
  rw [fileBytes_run _ _ _ _ _ ((outfilePath_quiet env fl evs _ hpath).2 outfilePath),
    route_fileBytes, append_empty]

/-- C12: with the bare flag and the dark flag both set, as in `mdview -b -d`,
the stylesheet `main` substitutes is `darkstyle`, which is not the empty string:
the assignment for the dark flag comes after the one for the bare flag. -/
theorem actualStyle_bare_dark :
    bareDarkFlags.bare = true ∧ actualStyle bareDarkFlags = darkstyle ∧
      actualStyle bareDarkFlags ≠ "" ∧
      fileBytes "out.html" (main pipeEnv bareDarkFlags "doc.md").trace =
        Sprintf pipeEnv.fmtMore template [darkstyle, "Doc", "<h1>Doc</h1><p>100%</p>"] := by
  have hdark : actualStyle bareDarkFlags = darkstyle := rfl
  refine ⟨rfl, hdark, ?_, ?_⟩
  · rw [hdark]
    decide
  · exact main_fileBytes pipeEnv bareDarkFlags "doc.md" "# Doc\n\n100%" "Doc" "out.html" [] rfl
      (by decide) rfl rfl (by decide) rfl rfl rfl

/-- C13: with the dark flag set the stylesheet substituted is `darkstyle`,
whatever the other flags; with neither the dark flag nor the bare flag it is
`style`; it is always one of the empty string, `style` and `darkstyle`. -/
theorem actualStyle_selection (fl : Flags) :
    (fl.dark = true → actualStyle fl = darkstyle) ∧
    (fl.dark = false → fl.bare = false → actualStyle fl = style) ∧
    (actualStyle fl = "" ∨ actualStyle fl = style ∨ actualStyle fl = darkstyle) := by
  refine ⟨?_, ?_, ?_⟩
  · intro hdark
    simp [actualStyle, hdark]
  · intro hdark hbare
    simp [actualStyle, hdark, hbare]
  · cases hdark : fl.dark <;> cases hbare : fl.bare <;> simp [actualStyle, hdark, hbare]

/-- Witness of C13: `-b -d` gives the dark stylesheet, no flag the light one. -/
theorem actualStyle_selection_witness :
    actualStyle bareDarkFlags = darkstyle ∧ actualStyle pageFlags = style :=
  ⟨(actualStyle_selection bareDarkFlags).1 rfl, (actualStyle_selection pageFlags).2.1 rfl rfl⟩

/-! ## The early exits of `main` -/

theorem route_no_exit (env : Env) (fl : Flags) (outfilePath title html : String) (code : Nat) :
    (main.route env fl outfilePath title html).2 ≠ .exit code := by
  unfold main.route
  cases env.stdoutMode with
  | none => simp
  | some mode =>
    by_cases hterm : mode &&& ModeCharDevice = ModeCharDevice
    · by_cases hopen : env.openFileOk outfilePath = true <;> simp [hterm, hopen]
    · by_cases hprint : env.printfOk = true <;> simp [hterm, hprint]

theorem main_proceeds (env : Env) (fl : Flags) (inputFilename : String)
    (hversion : fl.version = false) (hinput : inputFilename ≠ "") (hhelp : fl.help = false) :
    (∃ rest, (main env fl inputFilename).trace = .readFile inputFilename :: rest) ∧
      ∀ code, (main env fl inputFilename).outcome ≠ .exit code := by
  unfold main
  simp only [hversion, hinput, hhelp, Bool.false_eq_true, if_false, or_self, getTitle_eq]
  cases env.readFile inputFilename with
  | none => exact ⟨⟨_, rfl⟩, fun code => by simp⟩
  | some dat =>
    simp only []
    rcases main.outfilePath env fl with ⟨evs, _ | outfilePath⟩
    · exact ⟨⟨_, rfl⟩, fun code => by simp⟩
    · simp only []
      by_cases hcreate : env.createOk outfilePath = true
      · by_cases hwrite : env.fprintfOk = true
        · simp only [hcreate, hwrite, if_true, List.cons_append]
          exact ⟨⟨_, rfl⟩, fun code => route_no_exit env fl _ _ _ code⟩
        · simp only [hcreate, hwrite, if_true, if_false, List.cons_append]
          exact ⟨⟨_, rfl⟩, fun code => by simp⟩
      · simp only [hcreate, if_false, List.cons_append]
        exact ⟨⟨_, rfl⟩, fun code => by simp⟩

/-- C14: with the version flag set `main` prints the version `1.4.0` and exits
with code 0, whatever the help flag and the input path; otherwise, with an empty
input path or the help flag, it writes the usage text to the error stream and
exits with code 1; neither run reads the input or creates a file; every other
run goes on to read the input and does not end in `os.Exit`. -/
theorem main_early_exit (env : Env) (fl : Flags) (inputFilename : String) :
    (fl.version = true →
      main env fl inputFilename = ⟨[.stdout "1.4.0\n"], .exit 0⟩) ∧
    (fl.version = false → (inputFilename = "" ∨ fl.help = true) →
      main env fl inputFilename = ⟨[.stderr usage, .stderr env.flagDefaults], .exit 1⟩) ∧
    (fl.version = false → inputFilename ≠ "" → fl.help = false →
      (∃ rest, (main env fl inputFilename).trace = .readFile inputFilename :: rest) ∧
        ∀ code, (main env fl inputFilename).outcome ≠ .exit code) := by
  refine ⟨?_, ?_, main_proceeds env fl inputFilename⟩
  · intro hversion
    unfold main
    rw [if_pos hversion]
    rfl
  · intro hversion husage
    unfold main
    rw [if_neg (by simp [hversion]), if_pos husage]

/-- Witness of C14: `mdview -v -h`, then `mdview` with no argument. -/
theorem main_early_exit_witness :
    main pipeEnv versionHelpFlags "" = ⟨[.stdout "1.4.0\n"], .exit 0⟩ ∧
    main pipeEnv pageFlags "" = ⟨[.stderr usage, .stderr ""], .exit 1⟩ ∧
    (∃ rest, (main pipeEnv pageFlags "doc.md").trace = .readFile "doc.md" :: rest) :=
  ⟨(main_early_exit pipeEnv versionHelpFlags "").1 rfl,
    (main_early_exit pipeEnv pageFlags "").2.1 rfl (Or.inl rfl),
    ((main_early_exit pipeEnv pageFlags "doc.md").2.2 rfl (by decide) rfl).1⟩

/-! ## Standard output on a character device that is no terminal -/

theorem Sprintf_template_ne_empty (more : FmtRest) (a : List String) :
    Sprintf more template a ≠ "" := by
  intro h
  have hd : (Sprintf more template a).data = '<' :: doPrintf more a template.data.tail 0 := rfl
  rw [h] at hd
  exact absurd hd (by simp)

/-- C9: the action of `main` is chosen from the character-device bit of the mode
of standard output, not from standard output being a terminal, and the path is
printed through `fmt.Printf` as a format.  Run as
`mdview -f -o out.html doc.md > /dev/null`, standard output is no terminal and
the path-only flag is set, yet `main` opens the destination in the viewer and
prints nothing; run as `mdview -f -o 50%off.html doc.md` on a pipe, the one
action prints `50%!o(MISSING)ff.html`, not the path. -/
theorem main_routing_devnull :
    devNullEnv.stdoutMode = some 69206454 ∧
    (main devNullEnv pathFlags "doc.md").trace =
      [.readFile "doc.md", .create "out.html",
        .write "out.html"
          (Sprintf devNullEnv.fmtMore template [style, "Doc", "<h1>Doc</h1><p>100%</p>"]),
        .sync "out.html", .openFile "out.html", .close "out.html"] ∧
    stdoutBytes (main devNullEnv pathFlags "doc.md").trace = "" ∧
    (main pipeEnv percentFlags "doc.md").trace =
      [.readFile "doc.md", .create "50%off.html",
        .write "50%off.html"
          (Sprintf pipeEnv.fmtMore template [style, "Doc", "<h1>Doc</h1><p>100%</p>"]),
        .sync "50%off.html", .stdout "50%!o(MISSING)ff.html", .close "50%off.html"] :=
  ⟨rfl,
    (main_route_trace devNullEnv pathFlags "doc.md" "# Doc\n\n100%" "Doc" "out.html" [] 69206454
      rfl (by decide) rfl rfl (by decide) rfl rfl rfl rfl).1,
    (main_route_trace devNullEnv pathFlags "doc.md" "# Doc\n\n100%" "Doc" "out.html" [] 69206454
      rfl (by decide) rfl rfl (by decide) rfl rfl rfl rfl).2.1 (by decide),
    (main_route_trace pipeEnv percentFlags "doc.md" "# Doc\n\n100%" "Doc" "50%off.html" [] 0
      rfl (by decide) rfl rfl (by decide) rfl rfl rfl rfl).1⟩

/-- C10: run as `mdview -o out.html doc.md > /dev/null`, standard output is
redirected, no terminal, and the path-only flag is unset, yet `main` takes the
viewer branch: nothing is written to standard output while the destination file
holds the whole page, so the two byte strings differ. -/
theorem main_devnull_stdout_ne_file :
    devNullEnv.stdoutMode = some 69206454 ∧
    stdoutBytes (main devNullEnv pageFlags "doc.md").trace = "" ∧
    fileBytes "out.html" (main devNullEnv pageFlags "doc.md").trace =
      Sprintf devNullEnv.fmtMore template [style, "Doc", "<h1>Doc</h1><p>100%</p>"] ∧
    stdoutBytes (main devNullEnv pageFlags "doc.md").trace ≠
      fileBytes "out.html" (main devNullEnv pageFlags "doc.md").trace := by
  have hout : stdoutBytes (main devNullEnv pageFlags "doc.md").trace = "" :=
    (main_route_trace devNullEnv pageFlags "doc.md" "# Doc\n\n100%" "Doc" "out.html" [] 69206454
      rfl (by decide) rfl rfl (by decide) rfl rfl rfl rfl).2.1 (by decide)
  have hfile : fileBytes "out.html" (main devNullEnv pageFlags "doc.md").trace =
      Sprintf devNullEnv.fmtMore template [style, "Doc", "<h1>Doc</h1><p>100%</p>"] :=
    main_fileBytes devNullEnv pageFlags "doc.md" "# Doc\n\n100%" "Doc" "out.html" [] rfl
      (by decide) rfl rfl (by decide) rfl rfl rfl
  refine ⟨rfl, hout, hfile, ?_⟩
  rw [hout, hfile]
  exact fun h => Sprintf_template_ne_empty _ _ h.symm

end Mdview
